import Mathlib

/-! # kubeturbo: `pkg/action/executor/k8s_controller.go`

A shallow embedding of the three controller handles (`replicationController`,
`replicaSet`, `deployment`) with their `get` and `update` methods, and the
properties of the resize protocol that follow from the code.

Conventions of the embedding

* A Go pointer is an `Option`; dereferencing `nil` is the outcome `Result.fault`
  (a run-time nil-pointer fault), which is neither a returned value nor a returned
  error.
* A Go `(value, error)` result pair is kept as a pair of `Option`s, so that the
  code's `err != nil` tests are modelled literally.
* `int32` replica counts are `Int`: the code only copies them and stores the
  constant `0`, no arithmetic is performed on them.
* Objects are values: an assignment through the retained pointer (`*rc.rc.Spec.Replicas
  = 0`) is an update of the retained object, and the object handed to the client
  is the retained object as it stands at the call.
* `get` copies the pod specification as a struct, so the `Containers` slice of the
  spec it returns and that of the retained object share one backing array. The only
  way this sharing shows is a write through it; that write is `writeContainer`,
  which changes the spec and the retained object together.
* The remote client is an explicit state transformer over an arbitrary store
  state `σ`; every method returns, besides its Go result, the receiver as it is
  left, the store as it is left and the list of remote calls it issued.
-/

namespace Kubeturbo

/-! ## Kubernetes API objects -/

/-- Go `error` values returned by the remote client. -/
structure Error where
  reason : String
  deriving DecidableEq, Repr

/-- Modelled from the spec: `apicorev1.Container` belongs to the Kubernetes API
library, not to the source tree; only a name, an image and the two resource
amounts that a resize action changes are kept. -/
structure Container where
  Name : String
  Image : String
  CPU : Nat
  Memory : Nat
  deriving DecidableEq, Repr

/-- Modelled from the spec: `apicorev1.PodSpec`, the pod template description
that the handles copy as one value ("opaque pod template description"). -/
structure PodSpec where
  Containers : List Container
  NodeName : String
  deriving DecidableEq, Repr

/-- Modelled from the spec: `metav1.ObjectMeta`, the metadata that the handles do
not manage (name, labels, owner references, resource version). -/
structure ObjectMeta where
  Name : String
  Labels : List (String × String)
  OwnerReferences : List String
  ResourceVersion : String
  deriving DecidableEq, Repr

/-- Modelled from the spec: `apicorev1.PodTemplateSpec`, template metadata plus
the pod specification. -/
structure PodTemplateSpec where
  Meta : ObjectMeta
  Spec : PodSpec
  deriving DecidableEq, Repr

/-- Modelled from the spec: `apicorev1.ReplicationControllerSpec`. `Replicas` is
a `*int32` and `Template` a `*PodTemplateSpec`: both may be nil. -/
structure ReplicationControllerSpec where
  Replicas : Option Int
  MinReadySeconds : Int
  Selector : List (String × String)
  Template : Option PodTemplateSpec
  deriving DecidableEq, Repr

/-- Modelled from the spec: `apicorev1.ReplicationController`. -/
structure ReplicationController where
  Meta : ObjectMeta
  Spec : ReplicationControllerSpec
  StatusReplicas : Int
  deriving DecidableEq, Repr

/-- Modelled from the spec: `apiextv1beta1.ReplicaSetSpec`. `Replicas` is a
`*int32`, `Selector` a `*metav1.LabelSelector`, `Template` a plain value. -/
structure ReplicaSetSpec where
  Replicas : Option Int
  MinReadySeconds : Int
  Selector : Option (List (String × String))
  Template : PodTemplateSpec
  deriving DecidableEq, Repr

/-- Modelled from the spec: `apiextv1beta1.ReplicaSet`. -/
structure ReplicaSet where
  Meta : ObjectMeta
  Spec : ReplicaSetSpec
  StatusReplicas : Int
  deriving DecidableEq, Repr

/-- Modelled from the spec: `apiappsv1beta1.DeploymentSpec`. `Replicas` is a
`*int32`, `Selector` a `*metav1.LabelSelector`, `Template` a plain value. -/
structure DeploymentSpec where
  Replicas : Option Int
  Selector : Option (List (String × String))
  Template : PodTemplateSpec
  Strategy : String
  MinReadySeconds : Int
  Paused : Bool
  deriving DecidableEq, Repr

/-- Modelled from the spec: `apiappsv1beta1.Deployment`. -/
structure Deployment where
  Meta : ObjectMeta
  Spec : DeploymentSpec
  StatusReplicas : Int
  deriving DecidableEq, Repr

/-- The assignment `*o.Spec.Replicas = n` on a replication controller whose
`Replicas` pointer is not nil. -/
def ReplicationController.setReplicas (o : ReplicationController) (n : Int) :
    ReplicationController :=
  { o with Spec := { o.Spec with Replicas := some n } }

/-- The assignment `o.Spec.Template.Spec = p` on a replication controller whose
`Template` pointer is not nil. -/
def ReplicationController.setPodSpec (o : ReplicationController) (p : PodSpec) :
    ReplicationController :=
  { o with Spec := { o.Spec with
      Template := o.Spec.Template.map (fun t => { t with Spec := p }) } }

/-- The write `o.Spec.Template.Spec.Containers[i] = c` into the container array of
a replication controller. -/
def ReplicationController.setContainer (o : ReplicationController) (i : Nat) (c : Container) :
    ReplicationController :=
  { o with Spec := { o.Spec with
      Template := o.Spec.Template.map (fun t =>
        { t with Spec := { t.Spec with Containers := t.Spec.Containers.set i c } }) } }

/-- The assignment `*o.Spec.Replicas = n` on a replica set whose `Replicas`
pointer is not nil. -/
def ReplicaSet.setReplicas (o : ReplicaSet) (n : Int) : ReplicaSet :=
  { o with Spec := { o.Spec with Replicas := some n } }

/-- The assignment `o.Spec.Template.Spec = p` on a replica set. -/
def ReplicaSet.setPodSpec (o : ReplicaSet) (p : PodSpec) : ReplicaSet :=
  { o with Spec := { o.Spec with Template := { o.Spec.Template with Spec := p } } }

/-- The write `o.Spec.Template.Spec.Containers[i] = c` into the container array of
a replica set. -/
def ReplicaSet.setContainer (o : ReplicaSet) (i : Nat) (c : Container) : ReplicaSet :=
  { o with Spec := { o.Spec with
      Template := { o.Spec.Template with
        Spec := { o.Spec.Template.Spec with
          Containers := o.Spec.Template.Spec.Containers.set i c } } } }

/-- The assignment `*o.Spec.Replicas = n` on a deployment whose `Replicas`
pointer is not nil. -/
def Deployment.setReplicas (o : Deployment) (n : Int) : Deployment :=
  { o with Spec := { o.Spec with Replicas := some n } }

/-- The assignment `o.Spec.Template.Spec = p` on a deployment. -/
def Deployment.setPodSpec (o : Deployment) (p : PodSpec) : Deployment :=
  { o with Spec := { o.Spec with Template := { o.Spec.Template with Spec := p } } }

/-! ## The remote client and the shape of a method run -/

/-- Modelled from the spec: the typed client interfaces of client-go
(`ReplicationControllerInterface`, `ReplicaSetInterface`, `DeploymentInterface`)
restricted to the two operations the handles call. Each call returns the Go pair
`(object pointer, error)` and the store as the call leaves it. -/
structure ControllerInterface (Obj σ : Type) where
  Get : String → σ → (Option Obj × Option Error) × σ
  Update : Obj → σ → (Option Obj × Option Error) × σ

/-- One remote call as seen from the handle: the argument sent and the Go pair
that came back. `fetch` is `client.Get`, `replace` is `client.Update`. -/
inductive Call (Obj : Type) where
  | fetch (name : String) (obj : Option Obj) (err : Option Error)
  | replace (arg : Obj) (obj : Option Obj) (err : Option Error)
  deriving DecidableEq, Repr

/-- Outcome of a Go call: it returns a value, or it faults on a nil pointer. -/
inductive Result (α : Type) where
  | ret (a : α)
  | fault
  deriving DecidableEq, Repr

/-- Everything a method run leaves behind: its outcome, the receiver, the store
and the remote calls issued, oldest first. -/
structure Run (H Obj σ α : Type) where
  ret : Result α
  self : H
  store : σ
  calls : List (Call Obj)

/-- The `k8sControllerSpec` struct. -/
structure k8sControllerSpec where
  replicas : Int
  podSpec : PodSpec
  isResize : Bool
  updated : Bool
  deriving DecidableEq, Repr

/-! ## ReplicationController -/

/-- The `replicationController` handle: the client and the retained object
(`rc`, a pointer, nil until `get` has run). -/
structure replicationController (σ : Type) where
  client : ControllerInterface ReplicationController σ
  rc : Option ReplicationController

/-- The method `(*replicationController).get`, lines 41-51. The spec returned
holds the contents of `rc.rc.Spec.Template.Spec` at the time of the call; line 49
copies the struct only, so its `Containers` remain shared with the retained object
(see `replicationController.writeContainer`). -/
def replicationController.get {σ : Type} (rc : replicationController σ) (name : String)
    (s : σ) : Run (replicationController σ) ReplicationController σ
      (Option k8sControllerSpec × Option Error) :=
  match rc.client.Get name s with
  | ((obj, err), s1) =>
    -- rc.rc, err = rc.client.Get(name, ...)
    let rc1 : replicationController σ := { rc with rc := obj }
    let calls := [Call.fetch name obj err]
    match err with
    | some e => ⟨.ret (none, some e), rc1, s1, calls⟩
    | none =>
      match obj with
      | none => ⟨.fault, rc1, s1, calls⟩
      | some o =>
        -- *rc.rc.Spec.Replicas
        match o.Spec.Replicas with
        | none => ⟨.fault, rc1, s1, calls⟩
        | some r =>
          -- rc.rc.Spec.Template.Spec
          match o.Spec.Template with
          | none => ⟨.fault, rc1, s1, calls⟩
          | some t =>
            ⟨.ret (some { replicas := r, podSpec := t.Spec, isResize := false,
                          updated := false }, none), rc1, s1, calls⟩

/-- Lines 62-65 of `(*replicationController).update`: write the target replica
count and pod specification into the retained object and push it. `calls` are the
remote calls already issued by the caller. -/
def replicationController.reapply {σ : Type} (rc : replicationController σ)
    (spec : k8sControllerSpec) (s : σ) (calls : List (Call ReplicationController)) :
    Run (replicationController σ) ReplicationController σ (Option Error) :=
  match rc.rc with
  | none => ⟨.fault, rc, s, calls⟩
  | some o =>
    match o.Spec.Replicas with
    | none => ⟨.fault, rc, s, calls⟩
    | some _ =>
      -- *rc.rc.Spec.Replicas = spec.replicas
      let o1 := o.setReplicas spec.replicas
      match o1.Spec.Template with
      | none => ⟨.fault, { rc with rc := some o1 }, s, calls⟩
      | some _ =>
        -- rc.rc.Spec.Template.Spec = spec.podSpec
        let o2 := o1.setPodSpec spec.podSpec
        -- _, err = rc.client.Update(rc.rc); return err
        match rc.client.Update o2 s with
        | ((obj, err), s1) =>
          ⟨.ret err, { rc with rc := some o2 }, s1, calls ++ [Call.replace o2 obj err]⟩

/-- The method `(*replicationController).update`, lines 53-66. -/
def replicationController.update {σ : Type} (rc : replicationController σ)
    (spec : k8sControllerSpec) (s : σ) :
    Run (replicationController σ) ReplicationController σ (Option Error) :=
  if spec.isResize then
    match rc.rc with
    | none => ⟨.fault, rc, s, []⟩
    | some o =>
      match o.Spec.Replicas with
      | none => ⟨.fault, rc, s, []⟩
      | some _ =>
        -- *rc.rc.Spec.Replicas = 0
        let o0 := o.setReplicas 0
        -- if rc.rc, err = rc.client.Update(rc.rc); err != nil { return err }
        match rc.client.Update o0 s with
        | ((obj, err), s1) =>
          let rc1 : replicationController σ := { rc with rc := obj }
          match err with
          | some e => ⟨.ret (some e), rc1, s1, [Call.replace o0 obj err]⟩
          | none => replicationController.reapply rc1 spec s1 [Call.replace o0 obj err]
  else
    replicationController.reapply rc spec s []

/-- Modelled from the spec: the caller's step between `get` and `update` ("caller
mutates fields of the returned spec"), for a caller that writes container `i` of the
returned spec in place, `spec.podSpec.Containers[i] = c` (a write into the resource
maps of that container, which are shared likewise, is such a write too); the caller
is not in the source tree. It applies to the handle and the spec as `get` leaves
them: line 49 makes the two `Containers` slices share one backing array, so the
write lands in the spec and in the retained object alike. An index out of range
faults. -/
def replicationController.writeContainer {σ : Type} (rc : replicationController σ)
    (spec : k8sControllerSpec) (i : Nat) (c : Container) :
    Result (replicationController σ × k8sControllerSpec) :=
  if i < spec.podSpec.Containers.length then
    .ret ({ rc with rc := rc.rc.map (fun o => o.setContainer i c) },
          { spec with podSpec :=
              { spec.podSpec with Containers := spec.podSpec.Containers.set i c } })
  else
    .fault

/-! ## ReplicaSet -/

/-- The `replicaSet` handle: the client and the retained object (`rs`, a
pointer, nil until `get` has run). -/
structure replicaSet (σ : Type) where
  client : ControllerInterface ReplicaSet σ
  rs : Option ReplicaSet

/-- The method `(*replicaSet).get`, lines 79-89. The spec returned holds the
contents of `rs.rs.Spec.Template.Spec` at the time of the call; line 87 copies the
struct only, so its `Containers` remain shared with the retained object (see
`replicaSet.writeContainer`). -/
def replicaSet.get {σ : Type} (rs : replicaSet σ) (name : String) (s : σ) :
    Run (replicaSet σ) ReplicaSet σ (Option k8sControllerSpec × Option Error) :=
  match rs.client.Get name s with
  | ((obj, err), s1) =>
    -- rs.rs, err = rs.client.Get(name, ...)
    let rs1 : replicaSet σ := { rs with rs := obj }
    let calls := [Call.fetch name obj err]
    match err with
    | some e => ⟨.ret (none, some e), rs1, s1, calls⟩
    | none =>
      match obj with
      | none => ⟨.fault, rs1, s1, calls⟩
      | some o =>
        -- *rs.rs.Spec.Replicas
        match o.Spec.Replicas with
        | none => ⟨.fault, rs1, s1, calls⟩
        | some r =>
          ⟨.ret (some { replicas := r, podSpec := o.Spec.Template.Spec, isResize := false,
                        updated := false }, none), rs1, s1, calls⟩

/-- Lines 100-103 of `(*replicaSet).update`: write the target replica count and
pod specification into the retained object and push it. `calls` are the remote
calls already issued by the caller. -/
def replicaSet.reapply {σ : Type} (rs : replicaSet σ) (spec : k8sControllerSpec) (s : σ)
    (calls : List (Call ReplicaSet)) : Run (replicaSet σ) ReplicaSet σ (Option Error) :=
  match rs.rs with
  | none => ⟨.fault, rs, s, calls⟩
  | some o =>
    match o.Spec.Replicas with
    | none => ⟨.fault, rs, s, calls⟩
    | some _ =>
      -- *rs.rs.Spec.Replicas = spec.replicas
      -- rs.rs.Spec.Template.Spec = spec.podSpec
      let o2 := (o.setReplicas spec.replicas).setPodSpec spec.podSpec
      -- _, err = rs.client.Update(rs.rs); return err
      match rs.client.Update o2 s with
      | ((obj, err), s1) =>
        ⟨.ret err, { rs with rs := some o2 }, s1, calls ++ [Call.replace o2 obj err]⟩

/-- The method `(*replicaSet).update`, lines 91-104. -/
def replicaSet.update {σ : Type} (rs : replicaSet σ) (spec : k8sControllerSpec) (s : σ) :
    Run (replicaSet σ) ReplicaSet σ (Option Error) :=
  if spec.isResize then
    match rs.rs with
    | none => ⟨.fault, rs, s, []⟩
    | some o =>
      match o.Spec.Replicas with
      | none => ⟨.fault, rs, s, []⟩
      | some _ =>
        -- *rs.rs.Spec.Replicas = 0
        let o0 := o.setReplicas 0
        -- if rs.rs, err = rs.client.Update(rs.rs); err != nil { return err }
        match rs.client.Update o0 s with
        | ((obj, err), s1) =>
          let rs1 : replicaSet σ := { rs with rs := obj }
          match err with
          | some e => ⟨.ret (some e), rs1, s1, [Call.replace o0 obj err]⟩
          | none => replicaSet.reapply rs1 spec s1 [Call.replace o0 obj err]
  else
    replicaSet.reapply rs spec s []

/-- Modelled from the spec: the caller's step between `get` and `update` ("caller
mutates fields of the returned spec"), for a caller that writes container `i` of the
returned spec in place, `spec.podSpec.Containers[i] = c` (a write into the resource
maps of that container, which are shared likewise, is such a write too); the caller
is not in the source tree. It applies to the handle and the spec as `get` leaves
them: line 87 makes the two `Containers` slices share one backing array, so the
write lands in the spec and in the retained object alike. An index out of range
faults. -/
def replicaSet.writeContainer {σ : Type} (rs : replicaSet σ) (spec : k8sControllerSpec)
    (i : Nat) (c : Container) : Result (replicaSet σ × k8sControllerSpec) :=
  if i < spec.podSpec.Containers.length then
    .ret ({ rs with rs := rs.rs.map (fun o => o.setContainer i c) },
          { spec with podSpec :=
              { spec.podSpec with Containers := spec.podSpec.Containers.set i c } })
  else
    .fault

/-! ## Deployment -/

/-- The `deployment` handle: the client and the retained object (`dep`, a
pointer, nil until `get` has run). -/
structure deployment (σ : Type) where
  client : ControllerInterface Deployment σ
  dep : Option Deployment

/-- The method `(*deployment).get`, lines 117-127. The spec returned holds the
contents of `dep.dep.Spec.Template.Spec` at the time of the call; line 125 copies
the struct only, so its `Containers` remain shared with the retained object. -/
def deployment.get {σ : Type} (dep : deployment σ) (name : String) (s : σ) :
    Run (deployment σ) Deployment σ (Option k8sControllerSpec × Option Error) :=
  match dep.client.Get name s with
  | ((obj, err), s1) =>
    -- dep.dep, err = dep.client.Get(name, ...)
    let dep1 : deployment σ := { dep with dep := obj }
    let calls := [Call.fetch name obj err]
    match err with
    | some e => ⟨.ret (none, some e), dep1, s1, calls⟩
    | none =>
      match obj with
      | none => ⟨.fault, dep1, s1, calls⟩
      | some o =>
        -- *dep.dep.Spec.Replicas
        match o.Spec.Replicas with
        | none => ⟨.fault, dep1, s1, calls⟩
        | some r =>
          ⟨.ret (some { replicas := r, podSpec := o.Spec.Template.Spec, isResize := false,
                        updated := false }, none), dep1, s1, calls⟩

/-- The method `(*deployment).update`, lines 129-134. -/
def deployment.update {σ : Type} (dep : deployment σ) (spec : k8sControllerSpec) (s : σ) :
    Run (deployment σ) Deployment σ (Option Error) :=
  match dep.dep with
  | none => ⟨.fault, dep, s, []⟩
  | some o =>
    match o.Spec.Replicas with
    | none => ⟨.fault, dep, s, []⟩
    | some _ =>
      -- *dep.dep.Spec.Replicas = spec.replicas
      -- dep.dep.Spec.Template.Spec = spec.podSpec
      let o2 := (o.setReplicas spec.replicas).setPodSpec spec.podSpec
      -- _, err := dep.client.Update(dep.dep); return err
      match dep.client.Update o2 s with
      | ((obj, err), s1) =>
        ⟨.ret err, { dep with dep := some o2 }, s1, [Call.replace o2 obj err]⟩

/-! ## An in-memory remote store

The claims about what the remote store holds after an action need a store to
speak about. `MemStore` keeps the controller objects of one kind and a script of
injected failures: every remote call consumes the head of the script; `some e`
makes that call fail with `e` and leaves the objects untouched, `none` (or an
exhausted script) lets the call through. A replace that goes through overwrites
the stored object of the same name with exactly the object it is given and
returns it. As in client-go, a failing call returns a pointer to an empty
object together with the error. -/

/-- Modelled from the spec: the remote controller store (`fetch(name)`,
`replace(remoteObject)`), which lives behind client-go and is not in the source
tree. -/
structure MemStore (Obj : Type) where
  objects : List Obj
  script : List (Option Error)

/-- The outcome scripted for the `i`-th upcoming remote call. -/
def MemStore.outcome {Obj : Type} (s : MemStore Obj) (i : Nat) : Option Error :=
  (s.script.get? i).join

/-- The stored object called `name`, if there is one. -/
def MemStore.lookup {Obj : Type} (nameOf : Obj → String) (s : MemStore Obj) (name : String) :
    Option Obj :=
  s.objects.find? (fun o => nameOf o == name)

/-- Overwrite the first object of `l` that carries the name of `o` by `o`. -/
def MemStore.put {Obj : Type} (nameOf : Obj → String) (o : Obj) : List Obj → List Obj
  | [] => []
  | x :: xs => if nameOf x == nameOf o then o :: xs else x :: MemStore.put nameOf o xs

/-- The error of a call that names a controller the store does not hold. -/
def notFound : Error := ⟨"NotFound"⟩

/-- The client of a `MemStore`. -/
def MemStore.client {Obj : Type} (nameOf : Obj → String) (empty : Obj) :
    ControllerInterface Obj (MemStore Obj) where
  Get := fun name s =>
    let s1 : MemStore Obj := { s with script := s.script.tail }
    match s.outcome 0 with
    | some e => ((some empty, some e), s1)
    | none =>
      match s.lookup nameOf name with
      | some o => ((some o, none), s1)
      | none => ((some empty, some notFound), s1)
  Update := fun o s =>
    let s1 : MemStore Obj := { s with script := s.script.tail }
    match s.outcome 0 with
    | some e => ((some empty, some e), s1)
    | none =>
      match s.lookup nameOf (nameOf o) with
      | some _ => ((some o, none), { s1 with objects := MemStore.put nameOf o s.objects })
      | none => ((some empty, some notFound), s1)

/-- The empty metadata of a zero-valued Go object. -/
def ObjectMeta.empty : ObjectMeta := ⟨"", [], [], ""⟩

/-- The zero value `&v1.ReplicationController{}`. -/
def ReplicationController.empty : ReplicationController :=
  ⟨ObjectMeta.empty, ⟨none, 0, [], none⟩, 0⟩

/-- The zero value `&v1beta1.ReplicaSet{}`. -/
def ReplicaSet.empty : ReplicaSet :=
  ⟨ObjectMeta.empty, ⟨none, 0, none, ⟨ObjectMeta.empty, ⟨[], ""⟩⟩⟩, 0⟩

/-- The zero value `&v1beta1.Deployment{}`. -/
def Deployment.empty : Deployment :=
  ⟨ObjectMeta.empty, ⟨none, none, ⟨ObjectMeta.empty, ⟨[], ""⟩⟩, "", 0, false⟩, 0⟩

/-- In-memory client for replication controllers. -/
def rcClient : ControllerInterface ReplicationController (MemStore ReplicationController) :=
  MemStore.client (fun o => o.Meta.Name) ReplicationController.empty

/-- In-memory client for replica sets. -/
def rsClient : ControllerInterface ReplicaSet (MemStore ReplicaSet) :=
  MemStore.client (fun o => o.Meta.Name) ReplicaSet.empty

/-- In-memory client for deployments. -/
def depClient : ControllerInterface Deployment (MemStore Deployment) :=
  MemStore.client (fun o => o.Meta.Name) Deployment.empty

/-! ## Scenario data -/

/-- Pod template `T1`: one container with 1 CPU and 512 MB. -/
def T1 : PodSpec := ⟨[⟨"app", "app:1", 1, 512⟩], ""⟩

/-- Pod template `T2`: the container of `T1` resized to 2 CPU and 1024 MB. -/
def T2 : PodSpec := ⟨[⟨"app", "app:1", 2, 1024⟩], ""⟩

/-- Pod template `T3`: the container of `T1` resized to 4 CPU. -/
def T3 : PodSpec := ⟨[⟨"app", "app:1", 4, 512⟩], ""⟩

/-- The replication controller "web": 3 replicas of `T1`, labelled and owned. -/
def webRC : ReplicationController :=
  ⟨⟨"web", [("tier", "front")], ["owner-1"], "41"⟩,
   ⟨some 3, 0, [("app", "web")], some ⟨⟨"", [("app", "web")], [], ""⟩, T1⟩⟩, 3⟩

/-- The replica set "cache": 4 replicas of `T1`. -/
def cacheRS : ReplicaSet :=
  ⟨⟨"cache", [("tier", "back")], ["owner-2"], "7"⟩,
   ⟨some 4, 0, some [("app", "cache")], ⟨⟨"", [("app", "cache")], [], ""⟩, T1⟩⟩, 4⟩

/-- The deployment "api": 2 replicas of `T1`. -/
def apiDep : Deployment :=
  ⟨⟨"api", [("tier", "mid")], ["owner-3"], "12"⟩,
   ⟨some 2, some [("app", "api")], ⟨⟨"", [("app", "api")], [], ""⟩, T1⟩, "RollingUpdate", 0,
    false⟩, 2⟩

/-- A replication controller "web" whose replica-count pointer is nil. -/
def webNoReplicas : ReplicationController :=
  { webRC with Spec := { webRC.Spec with Replicas := none } }

/-- A replica set "cache" whose replica-count pointer is nil. -/
def cacheNoReplicas : ReplicaSet :=
  { cacheRS with Spec := { cacheRS.Spec with Replicas := none } }

/-- A deployment "api" whose replica-count pointer is nil. -/
def apiNoReplicas : Deployment :=
  { apiDep with Spec := { apiDep.Spec with Replicas := none } }

/-- A fresh replication-controller handle on the in-memory client. -/
def rcHandle : replicationController (MemStore ReplicationController) := ⟨rcClient, none⟩

/-- A fresh replica-set handle on the in-memory client. -/
def rsHandle : replicaSet (MemStore ReplicaSet) := ⟨rsClient, none⟩

/-- A fresh deployment handle on the in-memory client. -/
def depHandle : deployment (MemStore Deployment) := ⟨depClient, none⟩

/-- The container of `T1` resized to 2 CPU and 1024 MB, as in `T2`. -/
def resized : Container := ⟨"app", "app:1", 2, 1024⟩

/-- The replication-controller handle after fetching "web" and after the caller
has written `resized` into container 0 of the returned spec in place. -/
def webInPlace : replicationController (MemStore ReplicationController) :=
  ⟨rcClient, some (webRC.setContainer 0 resized)⟩

/-- The replica-set handle after fetching "cache" and after the caller has written
`resized` into container 0 of the returned spec in place. -/
def cacheInPlace : replicaSet (MemStore ReplicaSet) :=
  ⟨rsClient, some (cacheRS.setContainer 0 resized)⟩

/-- The transport error used in the failure scenarios. -/
def timeout : Error := ⟨"Timeout"⟩

/-! ## Fields the handles do not manage -/

/-- The objects `a` and `b` agree on every field other than the replica count and
the pod specification of the template: metadata (name, labels, owner references,
resource version), minimum ready seconds, selector, template metadata, status. -/
def ReplicationController.sameFrame (a b : ReplicationController) : Prop :=
  a.Meta = b.Meta ∧ a.Spec.MinReadySeconds = b.Spec.MinReadySeconds ∧
  a.Spec.Selector = b.Spec.Selector ∧
  a.Spec.Template.map (fun t => t.Meta) = b.Spec.Template.map (fun t => t.Meta) ∧
  a.StatusReplicas = b.StatusReplicas

instance (a b : ReplicationController) : Decidable (a.sameFrame b) := by
  unfold ReplicationController.sameFrame
  infer_instance

/-- The objects `a` and `b` agree on every field other than the replica count and
the pod specification of the template. -/
def ReplicaSet.sameFrame (a b : ReplicaSet) : Prop :=
  a.Meta = b.Meta ∧ a.Spec.MinReadySeconds = b.Spec.MinReadySeconds ∧
  a.Spec.Selector = b.Spec.Selector ∧ a.Spec.Template.Meta = b.Spec.Template.Meta ∧
  a.StatusReplicas = b.StatusReplicas

instance (a b : ReplicaSet) : Decidable (a.sameFrame b) := by
  unfold ReplicaSet.sameFrame
  infer_instance

/-- The objects `a` and `b` agree on every field other than the replica count and
the pod specification of the template. -/
def Deployment.sameFrame (a b : Deployment) : Prop :=
  a.Meta = b.Meta ∧ a.Spec.Selector = b.Spec.Selector ∧
  a.Spec.Template.Meta = b.Spec.Template.Meta ∧ a.Spec.Strategy = b.Spec.Strategy ∧
  a.Spec.MinReadySeconds = b.Spec.MinReadySeconds ∧ a.Spec.Paused = b.Spec.Paused ∧
  a.StatusReplicas = b.StatusReplicas

instance (a b : Deployment) : Decidable (a.sameFrame b) := by
  unfold Deployment.sameFrame
  infer_instance

/-! ## Handles after a successful `get` -/

/-- The handle `h` is as a successful `get` leaves it, and retains `o`. -/
def replicationController.fetched {σ : Type} (h : replicationController σ)
    (o : ReplicationController) : Prop :=
  ∃ (h0 : replicationController σ) (name : String) (s0 : σ) (spec0 : k8sControllerSpec),
    (h0.get name s0).ret = .ret (some spec0, none) ∧ (h0.get name s0).self = h ∧ h.rc = some o

/-- The handle `h` is as a successful `get` leaves it, and retains `o`. -/
def replicaSet.fetched {σ : Type} (h : replicaSet σ) (o : ReplicaSet) : Prop :=
  ∃ (h0 : replicaSet σ) (name : String) (s0 : σ) (spec0 : k8sControllerSpec),
    (h0.get name s0).ret = .ret (some spec0, none) ∧ (h0.get name s0).self = h ∧ h.rs = some o

/-- The handle `h` is as a successful `get` leaves it, and retains `o`. -/
def deployment.fetched {σ : Type} (h : deployment σ) (o : Deployment) : Prop :=
  ∃ (h0 : deployment σ) (name : String) (s0 : σ) (spec0 : k8sControllerSpec),
    (h0.get name s0).ret = .ret (some spec0, none) ∧ (h0.get name s0).self = h ∧ h.dep = some o

/-! ## Auxiliary lemmas: what each method computes -/

section Setters

@[simp] theorem rcObj_setReplicas_replicas (o : ReplicationController)
    (n : Int) : (o.setReplicas n).Spec.Replicas = some n := rfl

@[simp] theorem rcObj_setReplicas_template (o : ReplicationController)
    (n : Int) : (o.setReplicas n).Spec.Template = o.Spec.Template := rfl

@[simp] theorem rcObj_setReplicas_meta (o : ReplicationController)
    (n : Int) : (o.setReplicas n).Meta = o.Meta := rfl

@[simp] theorem rcObj_setPodSpec_replicas (o : ReplicationController)
    (p : PodSpec) : (o.setPodSpec p).Spec.Replicas = o.Spec.Replicas := rfl

@[simp] theorem rcObj_setPodSpec_template (o : ReplicationController)
    (p : PodSpec) :
    (o.setPodSpec p).Spec.Template = o.Spec.Template.map (fun t => { t with Spec := p }) := rfl

@[simp] theorem rcObj_setPodSpec_meta (o : ReplicationController)
    (p : PodSpec) : (o.setPodSpec p).Meta = o.Meta := rfl

@[simp] theorem rsObj_setReplicas_replicas (o : ReplicaSet) (n : Int) :
    (o.setReplicas n).Spec.Replicas = some n := rfl

@[simp] theorem rsObj_setReplicas_template (o : ReplicaSet) (n : Int) :
    (o.setReplicas n).Spec.Template = o.Spec.Template := rfl

@[simp] theorem rsObj_setReplicas_meta (o : ReplicaSet) (n : Int) :
    (o.setReplicas n).Meta = o.Meta := rfl

@[simp] theorem rsObj_setPodSpec_replicas (o : ReplicaSet) (p : PodSpec) :
    (o.setPodSpec p).Spec.Replicas = o.Spec.Replicas := rfl

@[simp] theorem rsObj_setPodSpec_podSpec (o : ReplicaSet) (p : PodSpec) :
    (o.setPodSpec p).Spec.Template.Spec = p := rfl

@[simp] theorem rsObj_setPodSpec_meta (o : ReplicaSet) (p : PodSpec) :
    (o.setPodSpec p).Meta = o.Meta := rfl

@[simp] theorem depObj_setReplicas_replicas (o : Deployment) (n : Int) :
    (o.setReplicas n).Spec.Replicas = some n := rfl

@[simp] theorem depObj_setReplicas_template (o : Deployment) (n : Int) :
    (o.setReplicas n).Spec.Template = o.Spec.Template := rfl

@[simp] theorem depObj_setReplicas_meta (o : Deployment) (n : Int) :
    (o.setReplicas n).Meta = o.Meta := rfl

@[simp] theorem depObj_setPodSpec_replicas (o : Deployment) (p : PodSpec) :
    (o.setPodSpec p).Spec.Replicas = o.Spec.Replicas := rfl

@[simp] theorem depObj_setPodSpec_podSpec (o : Deployment) (p : PodSpec) :
    (o.setPodSpec p).Spec.Template.Spec = p := rfl

@[simp] theorem depObj_setPodSpec_meta (o : Deployment) (p : PodSpec) :
    (o.setPodSpec p).Meta = o.Meta := rfl

theorem rcObj_sameFrame_setReplicas (o : ReplicationController) (n : Int) :
    (o.setReplicas n).sameFrame o := ⟨rfl, rfl, rfl, rfl, rfl⟩

theorem rcObj_sameFrame_set (o : ReplicationController) (n : Int)
    (p : PodSpec) : ((o.setReplicas n).setPodSpec p).sameFrame o := by
  refine ⟨rfl, rfl, rfl, ?_, rfl⟩
  cases ht : o.Spec.Template <;> simp [ht]

theorem rsObj_sameFrame_setReplicas (o : ReplicaSet) (n : Int) :
    (o.setReplicas n).sameFrame o := ⟨rfl, rfl, rfl, rfl, rfl⟩

theorem rsObj_sameFrame_set (o : ReplicaSet) (n : Int) (p : PodSpec) :
    ((o.setReplicas n).setPodSpec p).sameFrame o := ⟨rfl, rfl, rfl, rfl, rfl⟩

theorem depObj_sameFrame_set (o : Deployment) (n : Int) (p : PodSpec) :
    ((o.setReplicas n).setPodSpec p).sameFrame o := ⟨rfl, rfl, rfl, rfl, rfl, rfl, rfl⟩

end Setters

section Lemmas

variable {σ : Type}

theorem rc_get_eq (h : replicationController σ) (name : String) (s : σ) :
    h.get name s =
      ⟨(match (h.client.Get name s).1.2 with
        | some e => .ret (none, some e)
        | none =>
          match (h.client.Get name s).1.1 with
          | none => .fault
          | some o =>
            match o.Spec.Replicas, o.Spec.Template with
            | some r, some t => .ret (some ⟨r, t.Spec, false, false⟩, none)
            | _, _ => .fault),
       { h with rc := (h.client.Get name s).1.1 }, (h.client.Get name s).2,
       [Call.fetch name (h.client.Get name s).1.1 (h.client.Get name s).1.2]⟩ := by
  unfold replicationController.get
  rcases h.client.Get name s with ⟨⟨obj, err⟩, s1⟩
  cases err with
  | some e => rfl
  | none =>
    cases obj with
    | none => rfl
    | some o =>
      cases hr : o.Spec.Replicas <;> cases ht : o.Spec.Template <;> simp [hr, ht]

theorem rc_fetched_inv {h : replicationController σ}
    {o : ReplicationController} (hf : h.fetched o) :
    h.rc = some o ∧ (∃ r, o.Spec.Replicas = some r) ∧ ∃ t, o.Spec.Template = some t := by
  obtain ⟨h0, name, s0, spec0, hret, hself, hrc⟩ := hf
  refine ⟨hrc, ?_⟩
  rw [rc_get_eq] at hret hself
  simp only at hret hself
  subst hself
  simp only at hrc
  rw [hrc] at hret
  cases he : (h0.client.Get name s0).1.2 with
  | some e => simp [he] at hret
  | none =>
    cases hr : o.Spec.Replicas <;> cases ht : o.Spec.Template <;> simp [he, hr, ht] at hret ⊢

theorem rc_reapply_eq (h : replicationController σ)
    (spec : k8sControllerSpec) (s : σ) (calls : List (Call ReplicationController))
    {o : ReplicationController} {r : Int} {t : PodTemplateSpec}
    {obj : Option ReplicationController} {err : Option Error} {s1 : σ}
    (ho : h.rc = some o) (hr : o.Spec.Replicas = some r) (ht : o.Spec.Template = some t)
    (hu : h.client.Update ((o.setReplicas spec.replicas).setPodSpec spec.podSpec) s
      = ((obj, err), s1)) :
    h.reapply spec s calls =
      ⟨.ret err, { h with rc := some ((o.setReplicas spec.replicas).setPodSpec spec.podSpec) }, s1,
       calls ++ [Call.replace ((o.setReplicas spec.replicas).setPodSpec spec.podSpec) obj err]⟩ := by
  unfold replicationController.reapply
  simp [ho, hr, ht, hu]

theorem rc_update_scale (h : replicationController σ)
    (spec : k8sControllerSpec) (s : σ) (hres : spec.isResize = false) :
    h.update spec s = h.reapply spec s [] := by
  unfold replicationController.update
  simp [hres]

theorem rc_update_resize_err (h : replicationController σ)
    (spec : k8sControllerSpec) (s : σ) (hres : spec.isResize = true)
    {o : ReplicationController} {r : Int}
    {obj : Option ReplicationController} {e : Error} {s1 : σ}
    (ho : h.rc = some o) (hr : o.Spec.Replicas = some r)
    (hu : h.client.Update (o.setReplicas 0) s = ((obj, some e), s1)) :
    h.update spec s =
      ⟨.ret (some e), { h with rc := obj }, s1, [Call.replace (o.setReplicas 0) obj (some e)]⟩ := by
  unfold replicationController.update
  simp [hres, ho, hr, hu]

theorem rc_update_resize_ok (h : replicationController σ)
    (spec : k8sControllerSpec) (s : σ) (hres : spec.isResize = true)
    {o : ReplicationController} {r : Int}
    {obj : Option ReplicationController} {s1 : σ}
    (ho : h.rc = some o) (hr : o.Spec.Replicas = some r)
    (hu : h.client.Update (o.setReplicas 0) s = ((obj, none), s1)) :
    h.update spec s =
      replicationController.reapply { h with rc := obj } spec s1
        [Call.replace (o.setReplicas 0) obj none] := by
  unfold replicationController.update
  simp [hres, ho, hr, hu]

theorem rs_get_eq (h : replicaSet σ) (name : String) (s : σ) :
    h.get name s =
      ⟨(match (h.client.Get name s).1.2 with
        | some e => .ret (none, some e)
        | none =>
          match (h.client.Get name s).1.1 with
          | none => .fault
          | some o =>
            match o.Spec.Replicas with
            | some r => .ret (some ⟨r, o.Spec.Template.Spec, false, false⟩, none)
            | none => .fault),
       { h with rs := (h.client.Get name s).1.1 }, (h.client.Get name s).2,
       [Call.fetch name (h.client.Get name s).1.1 (h.client.Get name s).1.2]⟩ := by
  unfold replicaSet.get
  rcases h.client.Get name s with ⟨⟨obj, err⟩, s1⟩
  cases err with
  | some e => rfl
  | none =>
    cases obj with
    | none => rfl
    | some o => cases hr : o.Spec.Replicas <;> simp [hr]

theorem rs_fetched_inv {h : replicaSet σ} {o : ReplicaSet} (hf : h.fetched o) :
    h.rs = some o ∧ ∃ r, o.Spec.Replicas = some r := by
  obtain ⟨h0, name, s0, spec0, hret, hself, hrs⟩ := hf
  refine ⟨hrs, ?_⟩
  rw [rs_get_eq] at hret hself
  simp only at hret hself
  subst hself
  simp only at hrs
  rw [hrs] at hret
  cases he : (h0.client.Get name s0).1.2 with
  | some e => simp [he] at hret
  | none => cases hr : o.Spec.Replicas <;> simp [he, hr] at hret ⊢

theorem rs_reapply_eq (h : replicaSet σ) (spec : k8sControllerSpec) (s : σ)
    (calls : List (Call ReplicaSet)) {o : ReplicaSet} {r : Int}
    {obj : Option ReplicaSet} {err : Option Error} {s1 : σ}
    (ho : h.rs = some o) (hr : o.Spec.Replicas = some r)
    (hu : h.client.Update ((o.setReplicas spec.replicas).setPodSpec spec.podSpec) s
      = ((obj, err), s1)) :
    h.reapply spec s calls =
      ⟨.ret err, { h with rs := some ((o.setReplicas spec.replicas).setPodSpec spec.podSpec) }, s1,
       calls ++ [Call.replace ((o.setReplicas spec.replicas).setPodSpec spec.podSpec) obj err]⟩ := by
  unfold replicaSet.reapply
  simp [ho, hr, hu]

theorem rs_update_scale (h : replicaSet σ) (spec : k8sControllerSpec) (s : σ)
    (hres : spec.isResize = false) : h.update spec s = h.reapply spec s [] := by
  unfold replicaSet.update
  simp [hres]

theorem rs_update_resize_err (h : replicaSet σ) (spec : k8sControllerSpec) (s : σ)
    (hres : spec.isResize = true) {o : ReplicaSet} {r : Int}
    {obj : Option ReplicaSet} {e : Error} {s1 : σ}
    (ho : h.rs = some o) (hr : o.Spec.Replicas = some r)
    (hu : h.client.Update (o.setReplicas 0) s = ((obj, some e), s1)) :
    h.update spec s =
      ⟨.ret (some e), { h with rs := obj }, s1, [Call.replace (o.setReplicas 0) obj (some e)]⟩ := by
  unfold replicaSet.update
  simp [hres, ho, hr, hu]

theorem rs_update_resize_ok (h : replicaSet σ) (spec : k8sControllerSpec) (s : σ)
    (hres : spec.isResize = true) {o : ReplicaSet} {r : Int}
    {obj : Option ReplicaSet} {s1 : σ}
    (ho : h.rs = some o) (hr : o.Spec.Replicas = some r)
    (hu : h.client.Update (o.setReplicas 0) s = ((obj, none), s1)) :
    h.update spec s =
      replicaSet.reapply { h with rs := obj } spec s1
        [Call.replace (o.setReplicas 0) obj none] := by
  unfold replicaSet.update
  simp [hres, ho, hr, hu]

theorem dep_get_eq (h : deployment σ) (name : String) (s : σ) :
    h.get name s =
      ⟨(match (h.client.Get name s).1.2 with
        | some e => .ret (none, some e)
        | none =>
          match (h.client.Get name s).1.1 with
          | none => .fault
          | some o =>
            match o.Spec.Replicas with
            | some r => .ret (some ⟨r, o.Spec.Template.Spec, false, false⟩, none)
            | none => .fault),
       { h with dep := (h.client.Get name s).1.1 }, (h.client.Get name s).2,
       [Call.fetch name (h.client.Get name s).1.1 (h.client.Get name s).1.2]⟩ := by
  unfold deployment.get
  rcases h.client.Get name s with ⟨⟨obj, err⟩, s1⟩
  cases err with
  | some e => rfl
  | none =>
    cases obj with
    | none => rfl
    | some o => cases hr : o.Spec.Replicas <;> simp [hr]

theorem dep_fetched_inv {h : deployment σ} {o : Deployment} (hf : h.fetched o) :
    h.dep = some o ∧ ∃ r, o.Spec.Replicas = some r := by
  obtain ⟨h0, name, s0, spec0, hret, hself, hdep⟩ := hf
  refine ⟨hdep, ?_⟩
  rw [dep_get_eq] at hret hself
  simp only at hret hself
  subst hself
  simp only at hdep
  rw [hdep] at hret
  cases he : (h0.client.Get name s0).1.2 with
  | some e => simp [he] at hret
  | none => cases hr : o.Spec.Replicas <;> simp [he, hr] at hret ⊢

theorem dep_update_eq (h : deployment σ) (spec : k8sControllerSpec) (s : σ)
    {o : Deployment} {r : Int} {obj : Option Deployment} {err : Option Error} {s1 : σ}
    (ho : h.dep = some o) (hr : o.Spec.Replicas = some r)
    (hu : h.client.Update ((o.setReplicas spec.replicas).setPodSpec spec.podSpec) s
      = ((obj, err), s1)) :
    h.update spec s =
      ⟨.ret err, { h with dep := some ((o.setReplicas spec.replicas).setPodSpec spec.podSpec) }, s1,
       [Call.replace ((o.setReplicas spec.replicas).setPodSpec spec.podSpec) obj err]⟩ := by
  unfold deployment.update
  simp [ho, hr, hu]

theorem rc_reapply_cases (h : replicationController σ)
    (spec : k8sControllerSpec) (s : σ) (calls : List (Call ReplicationController)) :
    ((h.reapply spec s calls).ret = .fault ∧ (h.reapply spec s calls).calls = calls) ∨
    ∃ o obj err, h.rc = some o ∧ (h.reapply spec s calls).ret = .ret err ∧
      (h.reapply spec s calls).calls =
        calls ++ [Call.replace ((o.setReplicas spec.replicas).setPodSpec spec.podSpec) obj err] := by
  cases ho : h.rc with
  | none => left; unfold replicationController.reapply; simp [ho]
  | some o =>
    cases hr : o.Spec.Replicas with
    | none => left; unfold replicationController.reapply; simp [ho, hr]
    | some r =>
      cases ht : o.Spec.Template with
      | none => left; unfold replicationController.reapply; simp [ho, hr, ht]
      | some t =>
        right
        cases hU : h.client.Update ((o.setReplicas spec.replicas).setPodSpec spec.podSpec) s with
        | mk p s1 =>
          obtain ⟨obj, err⟩ := p
          rw [rc_reapply_eq h spec s calls ho hr ht hU]
          exact ⟨o, obj, err, rfl, rfl, rfl⟩

theorem rc_update_cases (h : replicationController σ)
    (spec : k8sControllerSpec) (s : σ) :
    ((h.update spec s).ret = .fault ∧ (h.update spec s).calls = []) ∨
    (∃ o obj err, h.rc = some o ∧ spec.isResize = false ∧ (h.update spec s).ret = .ret err ∧
      (h.update spec s).calls =
        [Call.replace ((o.setReplicas spec.replicas).setPodSpec spec.podSpec) obj err]) ∨
    (∃ o obj e, h.rc = some o ∧ spec.isResize = true ∧ (h.update spec s).ret = .ret (some e) ∧
      (h.update spec s).calls = [Call.replace (o.setReplicas 0) obj (some e)]) ∨
    (∃ o obj, h.rc = some o ∧ spec.isResize = true ∧ (h.update spec s).ret = .fault ∧
      (h.update spec s).calls = [Call.replace (o.setReplicas 0) obj none]) ∨
    (∃ o o1 obj err, h.rc = some o ∧ spec.isResize = true ∧ (h.update spec s).ret = .ret err ∧
      (h.update spec s).calls =
        [Call.replace (o.setReplicas 0) (some o1) none,
         Call.replace ((o1.setReplicas spec.replicas).setPodSpec spec.podSpec) obj err]) := by
  cases hres : spec.isResize with
  | false =>
    rw [rc_update_scale h spec s hres]
    rcases rc_reapply_cases h spec s [] with ⟨h1, h2⟩ | ⟨o, obj, err, ho, h1, h2⟩
    · exact Or.inl ⟨h1, h2⟩
    · exact Or.inr (Or.inl ⟨o, obj, err, ho, rfl, h1, by simpa using h2⟩)
  | true =>
    cases ho : h.rc with
    | none => left; unfold replicationController.update; simp [hres, ho]
    | some o =>
      cases hr : o.Spec.Replicas with
      | none => left; unfold replicationController.update; simp [hres, ho, hr]
      | some r =>
        right; right
        cases hU : h.client.Update (o.setReplicas 0) s with
        | mk p s1 =>
          obtain ⟨obj, err⟩ := p
          cases err with
          | some e =>
            rw [rc_update_resize_err h spec s hres ho hr hU]
            exact Or.inl ⟨o, obj, e, rfl, rfl, rfl, rfl⟩
          | none =>
            rw [rc_update_resize_ok h spec s hres ho hr hU]
            right
            rcases rc_reapply_cases ⟨h.client, obj⟩ spec s1
                [Call.replace (o.setReplicas 0) obj none] with
              ⟨h1, h2⟩ | ⟨o1, obj2, err, ho1, h1, h2⟩
            · exact Or.inl ⟨o, obj, rfl, rfl, h1, h2⟩
            · simp only at ho1
              subst ho1
              exact Or.inr ⟨o, o1, obj2, err, rfl, rfl, h1, by simpa using h2⟩

theorem rs_reapply_cases (h : replicaSet σ) (spec : k8sControllerSpec) (s : σ)
    (calls : List (Call ReplicaSet)) :
    ((h.reapply spec s calls).ret = .fault ∧ (h.reapply spec s calls).calls = calls) ∨
    ∃ o obj err, h.rs = some o ∧ (h.reapply spec s calls).ret = .ret err ∧
      (h.reapply spec s calls).calls =
        calls ++ [Call.replace ((o.setReplicas spec.replicas).setPodSpec spec.podSpec) obj err] := by
  cases ho : h.rs with
  | none => left; unfold replicaSet.reapply; simp [ho]
  | some o =>
    cases hr : o.Spec.Replicas with
    | none => left; unfold replicaSet.reapply; simp [ho, hr]
    | some r =>
      right
      cases hU : h.client.Update ((o.setReplicas spec.replicas).setPodSpec spec.podSpec) s with
      | mk p s1 =>
        obtain ⟨obj, err⟩ := p
        rw [rs_reapply_eq h spec s calls ho hr hU]
        exact ⟨o, obj, err, rfl, rfl, rfl⟩

theorem rs_update_cases (h : replicaSet σ) (spec : k8sControllerSpec) (s : σ) :
    ((h.update spec s).ret = .fault ∧ (h.update spec s).calls = []) ∨
    (∃ o obj err, h.rs = some o ∧ spec.isResize = false ∧ (h.update spec s).ret = .ret err ∧
      (h.update spec s).calls =
        [Call.replace ((o.setReplicas spec.replicas).setPodSpec spec.podSpec) obj err]) ∨
    (∃ o obj e, h.rs = some o ∧ spec.isResize = true ∧ (h.update spec s).ret = .ret (some e) ∧
      (h.update spec s).calls = [Call.replace (o.setReplicas 0) obj (some e)]) ∨
    (∃ o obj, h.rs = some o ∧ spec.isResize = true ∧ (h.update spec s).ret = .fault ∧
      (h.update spec s).calls = [Call.replace (o.setReplicas 0) obj none]) ∨
    (∃ o o1 obj err, h.rs = some o ∧ spec.isResize = true ∧ (h.update spec s).ret = .ret err ∧
      (h.update spec s).calls =
        [Call.replace (o.setReplicas 0) (some o1) none,
         Call.replace ((o1.setReplicas spec.replicas).setPodSpec spec.podSpec) obj err]) := by
  cases hres : spec.isResize with
  | false =>
    rw [rs_update_scale h spec s hres]
    rcases rs_reapply_cases h spec s [] with ⟨h1, h2⟩ | ⟨o, obj, err, ho, h1, h2⟩
    · exact Or.inl ⟨h1, h2⟩
    · exact Or.inr (Or.inl ⟨o, obj, err, ho, rfl, h1, by simpa using h2⟩)
  | true =>
    cases ho : h.rs with
    | none => left; unfold replicaSet.update; simp [hres, ho]
    | some o =>
      cases hr : o.Spec.Replicas with
      | none => left; unfold replicaSet.update; simp [hres, ho, hr]
      | some r =>
        right; right
        cases hU : h.client.Update (o.setReplicas 0) s with
        | mk p s1 =>
          obtain ⟨obj, err⟩ := p
          cases err with
          | some e =>
            rw [rs_update_resize_err h spec s hres ho hr hU]
            exact Or.inl ⟨o, obj, e, rfl, rfl, rfl, rfl⟩
          | none =>
            rw [rs_update_resize_ok h spec s hres ho hr hU]
            right
            rcases rs_reapply_cases ⟨h.client, obj⟩ spec s1
                [Call.replace (o.setReplicas 0) obj none] with
              ⟨h1, h2⟩ | ⟨o1, obj2, err, ho1, h1, h2⟩
            · exact Or.inl ⟨o, obj, rfl, rfl, h1, h2⟩
            · simp only at ho1
              subst ho1
              exact Or.inr ⟨o, o1, obj2, err, rfl, rfl, h1, by simpa using h2⟩

theorem dep_update_cases (h : deployment σ) (spec : k8sControllerSpec) (s : σ) :
    ((h.update spec s).ret = .fault ∧ (h.update spec s).calls = []) ∨
    ∃ o obj err, h.dep = some o ∧ (h.update spec s).ret = .ret err ∧
      (h.update spec s).calls =
        [Call.replace ((o.setReplicas spec.replicas).setPodSpec spec.podSpec) obj err] := by
  cases ho : h.dep with
  | none => left; unfold deployment.update; simp [ho]
  | some o =>
    cases hr : o.Spec.Replicas with
    | none => left; unfold deployment.update; simp [ho, hr]
    | some r =>
      right
      cases hU : h.client.Update ((o.setReplicas spec.replicas).setPodSpec spec.podSpec) s with
      | mk p s1 =>
        obtain ⟨obj, err⟩ := p
        rw [dep_update_eq h spec s ho hr hU]
        exact ⟨o, obj, err, rfl, rfl, rfl⟩

end Lemmas

section Store

variable {Obj : Type} (nameOf : Obj → String)

theorem MemStore.outcome_tail (s : MemStore Obj) (objs : List Obj) (i : Nat) :
    MemStore.outcome ⟨objs, s.script.tail⟩ i = s.outcome (i + 1) := by
  unfold MemStore.outcome
  cases s.script <;> simp

theorem MemStore.name_of_lookup {s : MemStore Obj} {name : String} {o : Obj}
    (hl : s.lookup nameOf name = some o) : nameOf o = name := by
  unfold MemStore.lookup at hl
  simpa using List.find?_some hl

theorem MemStore.put_find (o : Obj) (l : List Obj) (name : String) (hn : nameOf o = name)
    (hex : (l.find? (fun x => nameOf x == name)).isSome) :
    (MemStore.put nameOf o l).find? (fun x => nameOf x == name) = some o := by
  induction l with
  | nil => simp at hex
  | cons x xs ih =>
    unfold MemStore.put
    by_cases hx : nameOf x = name
    · simp [hx, hn]
    · have hx2 : ¬ nameOf x = nameOf o := by rw [hn]; exact hx
      have hex2 : (xs.find? (fun x => nameOf x == name)).isSome := by simpa [hx] using hex
      simpa [hx, hx2] using ih hex2

theorem MemStore.put_same (o : Obj) (l : List Obj)
    (hf : l.find? (fun x => nameOf x == nameOf o) = some o) : MemStore.put nameOf o l = l := by
  induction l with
  | nil => rfl
  | cons x xs ih =>
    unfold MemStore.put
    by_cases hx : nameOf x = nameOf o
    · simp [hx] at hf ⊢
      exact hf.symm
    · simp [hx] at hf ⊢
      exact ih hf

theorem MemStore.client_Get_ok (empty : Obj) (s : MemStore Obj) (name : String) (o : Obj)
    (h0 : s.outcome 0 = none) (hl : s.lookup nameOf name = some o) :
    (MemStore.client nameOf empty).Get name s = ((some o, none), ⟨s.objects, s.script.tail⟩) := by
  simp [MemStore.client, h0, hl]

theorem MemStore.client_Update_ok (empty : Obj) (s : MemStore Obj) (o o0 : Obj)
    (h0 : s.outcome 0 = none) (hl : s.lookup nameOf (nameOf o) = some o0) :
    (MemStore.client nameOf empty).Update o s
      = ((some o, none), ⟨MemStore.put nameOf o s.objects, s.script.tail⟩) := by
  simp [MemStore.client, h0, hl]

theorem MemStore.client_Update_err (empty : Obj) (s : MemStore Obj) (o : Obj) (e : Error)
    (h0 : s.outcome 0 = some e) :
    (MemStore.client nameOf empty).Update o s
      = ((some empty, some e), ⟨s.objects, s.script.tail⟩) := by
  simp [MemStore.client, h0]

theorem rcObj_set_self {o : ReplicationController} {r : Int}
    {t : PodTemplateSpec} (hr : o.Spec.Replicas = some r) (ht : o.Spec.Template = some t) :
    (o.setReplicas r).setPodSpec t.Spec = o := by
  obtain ⟨m, ⟨rep, mrs, sel, tmpl⟩, st⟩ := o
  simp only at hr ht
  subst hr ht
  rfl

theorem rsObj_set_self {o : ReplicaSet} {r : Int} (hr : o.Spec.Replicas = some r) :
    (o.setReplicas r).setPodSpec o.Spec.Template.Spec = o := by
  obtain ⟨m, ⟨rep, mrs, sel, tmpl⟩, st⟩ := o
  simp only at hr
  subst hr
  rfl

theorem depObj_set_self {o : Deployment} {r : Int} (hr : o.Spec.Replicas = some r) :
    (o.setReplicas r).setPodSpec o.Spec.Template.Spec = o := by
  obtain ⟨m, ⟨rep, sel, tmpl, str, mrs, pau⟩, st⟩ := o
  simp only at hr
  subst hr
  rfl

theorem rc_get_mem (rc0 : Option ReplicationController)
    (s : MemStore ReplicationController) (name : String) (o : ReplicationController)
    (h0 : s.outcome 0 = none) (hl : s.lookup (fun x => x.Meta.Name) name = some o) :
    (⟨rcClient, rc0⟩ : replicationController (MemStore ReplicationController)).get name s =
      ⟨(match o.Spec.Replicas, o.Spec.Template with
        | some r, some t => .ret (some ⟨r, t.Spec, false, false⟩, none)
        | _, _ => .fault),
       ⟨rcClient, some o⟩, ⟨s.objects, s.script.tail⟩, [Call.fetch name (some o) none]⟩ := by
  rw [rc_get_eq]
  have hg := MemStore.client_Get_ok (fun x : ReplicationController => x.Meta.Name)
    ReplicationController.empty s name o h0 hl
  simp only [rcClient, hg]

theorem rs_get_mem (rs0 : Option ReplicaSet) (s : MemStore ReplicaSet) (name : String)
    (o : ReplicaSet) (h0 : s.outcome 0 = none)
    (hl : s.lookup (fun x => x.Meta.Name) name = some o) :
    (⟨rsClient, rs0⟩ : replicaSet (MemStore ReplicaSet)).get name s =
      ⟨(match o.Spec.Replicas with
        | some r => .ret (some ⟨r, o.Spec.Template.Spec, false, false⟩, none)
        | none => .fault),
       ⟨rsClient, some o⟩, ⟨s.objects, s.script.tail⟩, [Call.fetch name (some o) none]⟩ := by
  rw [rs_get_eq]
  have hg := MemStore.client_Get_ok (fun x : ReplicaSet => x.Meta.Name)
    ReplicaSet.empty s name o h0 hl
  simp only [rsClient, hg]

theorem dep_get_mem (dep0 : Option Deployment) (s : MemStore Deployment) (name : String)
    (o : Deployment) (h0 : s.outcome 0 = none)
    (hl : s.lookup (fun x => x.Meta.Name) name = some o) :
    (⟨depClient, dep0⟩ : deployment (MemStore Deployment)).get name s =
      ⟨(match o.Spec.Replicas with
        | some r => .ret (some ⟨r, o.Spec.Template.Spec, false, false⟩, none)
        | none => .fault),
       ⟨depClient, some o⟩, ⟨s.objects, s.script.tail⟩, [Call.fetch name (some o) none]⟩ := by
  rw [dep_get_eq]
  have hg := MemStore.client_Get_ok (fun x : Deployment => x.Meta.Name)
    Deployment.empty s name o h0 hl
  simp only [depClient, hg]

end Store

section InPlace

variable {σ : Type}

@[simp] theorem rcObj_setContainer_replicas (o : ReplicationController) (i : Nat)
    (c : Container) : (o.setContainer i c).Spec.Replicas = o.Spec.Replicas := rfl

@[simp] theorem rcObj_setContainer_meta (o : ReplicationController) (i : Nat)
    (c : Container) : (o.setContainer i c).Meta = o.Meta := rfl

@[simp] theorem rcObj_setContainer_template (o : ReplicationController) (i : Nat)
    (c : Container) :
    (o.setContainer i c).Spec.Template = o.Spec.Template.map (fun t =>
      { t with Spec := { t.Spec with Containers := t.Spec.Containers.set i c } }) := rfl

@[simp] theorem rsObj_setContainer_replicas (o : ReplicaSet) (i : Nat) (c : Container) :
    (o.setContainer i c).Spec.Replicas = o.Spec.Replicas := rfl

@[simp] theorem rsObj_setContainer_meta (o : ReplicaSet) (i : Nat) (c : Container) :
    (o.setContainer i c).Meta = o.Meta := rfl

@[simp] theorem rsObj_setContainer_podSpec (o : ReplicaSet) (i : Nat) (c : Container) :
    (o.setContainer i c).Spec.Template.Spec =
      { o.Spec.Template.Spec with Containers := o.Spec.Template.Spec.Containers.set i c } := rfl

theorem rc_get_ret_inv {h0 : replicationController σ} {name : String} {s0 : σ}
    {spec0 : k8sControllerSpec} {o : ReplicationController}
    (hret : (h0.get name s0).ret = .ret (some spec0, none))
    (ho : (h0.client.Get name s0).1.1 = some o) :
    (h0.get name s0).self = ⟨h0.client, some o⟩ ∧ o.Spec.Replicas = some spec0.replicas ∧
      ∃ t, o.Spec.Template = some t ∧ spec0.podSpec = t.Spec := by
  rw [rc_get_eq] at hret ⊢
  simp only [ho] at hret ⊢
  refine ⟨trivial, ?_⟩
  cases he : (h0.client.Get name s0).1.2 with
  | some e => simp [he] at hret
  | none =>
    cases hr : o.Spec.Replicas <;> cases ht : o.Spec.Template <;> simp [he, hr, ht] at hret
    subst hret
    exact ⟨rfl, _, rfl, rfl⟩

theorem rs_get_ret_inv {h0 : replicaSet σ} {name : String} {s0 : σ}
    {spec0 : k8sControllerSpec} {o : ReplicaSet}
    (hret : (h0.get name s0).ret = .ret (some spec0, none))
    (ho : (h0.client.Get name s0).1.1 = some o) :
    (h0.get name s0).self = ⟨h0.client, some o⟩ ∧ o.Spec.Replicas = some spec0.replicas ∧
      spec0.podSpec = o.Spec.Template.Spec := by
  rw [rs_get_eq] at hret ⊢
  simp only [ho] at hret ⊢
  refine ⟨trivial, ?_⟩
  cases he : (h0.client.Get name s0).1.2 with
  | some e => simp [he] at hret
  | none =>
    cases hr : o.Spec.Replicas <;> simp [he, hr] at hret
    subst hret
    exact ⟨rfl, rfl⟩

theorem rc_write_inv {client : ControllerInterface ReplicationController σ}
    {o : ReplicationController} {spec0 spec1 : k8sControllerSpec} {i : Nat} {c : Container}
    {h1 : replicationController σ}
    (hw : (⟨client, some o⟩ : replicationController σ).writeContainer spec0 i c
      = .ret (h1, spec1)) :
    h1 = ⟨client, some (o.setContainer i c)⟩ ∧
      spec1.podSpec = { spec0.podSpec with Containers := spec0.podSpec.Containers.set i c } := by
  unfold replicationController.writeContainer at hw
  split_ifs at hw
  simp only [Result.ret.injEq, Prod.mk.injEq, Option.map_some'] at hw
  obtain ⟨rfl, rfl⟩ := hw
  exact ⟨rfl, rfl⟩

theorem rs_write_inv {client : ControllerInterface ReplicaSet σ}
    {o : ReplicaSet} {spec0 spec1 : k8sControllerSpec} {i : Nat} {c : Container}
    {h1 : replicaSet σ}
    (hw : (⟨client, some o⟩ : replicaSet σ).writeContainer spec0 i c = .ret (h1, spec1)) :
    h1 = ⟨client, some (o.setContainer i c)⟩ ∧
      spec1.podSpec = { spec0.podSpec with Containers := spec0.podSpec.Containers.set i c } := by
  unfold replicaSet.writeContainer at hw
  split_ifs at hw
  simp only [Result.ret.injEq, Prod.mk.injEq, Option.map_some'] at hw
  obtain ⟨rfl, rfl⟩ := hw
  exact ⟨rfl, rfl⟩

theorem rc_resize_two_writes (h : replicationController σ) (spec : k8sControllerSpec) (s : σ)
    {o o1 : ReplicationController} {r r1 : Int} {t1 : PodTemplateSpec}
    {obj2 : Option ReplicationController} {err2 : Option Error} {s1 s2 : σ}
    (hres : spec.isResize = true) (ho : h.rc = some o) (hr : o.Spec.Replicas = some r)
    (hw1 : h.client.Update (o.setReplicas 0) s = ((some o1, none), s1))
    (hr1 : o1.Spec.Replicas = some r1) (ht1 : o1.Spec.Template = some t1)
    (hw2 : h.client.Update ((o1.setReplicas spec.replicas).setPodSpec spec.podSpec) s1
      = ((obj2, err2), s2)) :
    h.update spec s =
      ⟨.ret err2, ⟨h.client, some ((o1.setReplicas spec.replicas).setPodSpec spec.podSpec)⟩, s2,
       [Call.replace (o.setReplicas 0) (some o1) none,
        Call.replace ((o1.setReplicas spec.replicas).setPodSpec spec.podSpec) obj2 err2]⟩ := by
  rw [rc_update_resize_ok h spec s hres ho hr hw1,
    rc_reapply_eq ⟨h.client, some o1⟩ spec s1 _ rfl hr1 ht1 hw2]
  rfl

theorem rs_resize_two_writes (h : replicaSet σ) (spec : k8sControllerSpec) (s : σ)
    {o o1 : ReplicaSet} {r r1 : Int}
    {obj2 : Option ReplicaSet} {err2 : Option Error} {s1 s2 : σ}
    (hres : spec.isResize = true) (ho : h.rs = some o) (hr : o.Spec.Replicas = some r)
    (hw1 : h.client.Update (o.setReplicas 0) s = ((some o1, none), s1))
    (hr1 : o1.Spec.Replicas = some r1)
    (hw2 : h.client.Update ((o1.setReplicas spec.replicas).setPodSpec spec.podSpec) s1
      = ((obj2, err2), s2)) :
    h.update spec s =
      ⟨.ret err2, ⟨h.client, some ((o1.setReplicas spec.replicas).setPodSpec spec.podSpec)⟩, s2,
       [Call.replace (o.setReplicas 0) (some o1) none,
        Call.replace ((o1.setReplicas spec.replicas).setPodSpec spec.podSpec) obj2 err2]⟩ := by
  rw [rs_update_resize_ok h spec s hres ho hr hw1,
    rs_reapply_eq ⟨h.client, some o1⟩ spec s1 _ rfl hr1 hw2]
  rfl

theorem rc_mem_second_write_fails (s : MemStore ReplicationController) (name : String)
    (o0 o : ReplicationController) (spec : k8sControllerSpec) (e : Error) {r : Int}
    {t : PodTemplateSpec}
    (hl : s.lookup (fun x => x.Meta.Name) name = some o0) (hn : o.Meta.Name = name)
    (hr : o.Spec.Replicas = some r) (ht : o.Spec.Template = some t)
    (hres : spec.isResize = true) (h0 : s.outcome 0 = none) (h1 : s.outcome 1 = some e) :
    ((⟨rcClient, some o⟩ : replicationController (MemStore ReplicationController)).update
        spec s).ret = .ret (some e) ∧
    ((⟨rcClient, some o⟩ : replicationController (MemStore ReplicationController)).update
        spec s).calls.length = 2 ∧
    ((⟨rcClient, some o⟩ : replicationController (MemStore ReplicationController)).update
        spec s).store.lookup (fun x => x.Meta.Name) name = some (o.setReplicas 0) := by
  have hl1 : s.lookup (fun x : ReplicationController => x.Meta.Name)
      (o.setReplicas 0).Meta.Name = some o0 := by
    rw [rcObj_setReplicas_meta, hn]; exact hl
  have hU1 : rcClient.Update (o.setReplicas 0) s
      = ((some (o.setReplicas 0), none),
         ⟨MemStore.put (fun x => x.Meta.Name) (o.setReplicas 0) s.objects, s.script.tail⟩) :=
    MemStore.client_Update_ok (fun x : ReplicationController => x.Meta.Name)
      ReplicationController.empty s (o.setReplicas 0) o0 h0 hl1
  have hU2 : rcClient.Update
      (((o.setReplicas 0).setReplicas spec.replicas).setPodSpec spec.podSpec)
      ⟨MemStore.put (fun x => x.Meta.Name) (o.setReplicas 0) s.objects, s.script.tail⟩
      = ((some ReplicationController.empty, some e),
         ⟨MemStore.put (fun x => x.Meta.Name) (o.setReplicas 0) s.objects,
          s.script.tail.tail⟩) :=
    MemStore.client_Update_err (fun x : ReplicationController => x.Meta.Name)
      ReplicationController.empty _ _ e ((MemStore.outcome_tail s _ 0).trans h1)
  rw [rc_resize_two_writes ⟨rcClient, some o⟩ spec s hres rfl hr hU1
    (rcObj_setReplicas_replicas o 0) ((rcObj_setReplicas_template o 0).trans ht) hU2]
  refine ⟨rfl, rfl, ?_⟩
  exact MemStore.put_find (fun x : ReplicationController => x.Meta.Name) (o.setReplicas 0)
    s.objects name hn (by
      have := hl
      unfold MemStore.lookup at this
      rw [this]; rfl)

theorem rs_mem_second_write_fails (s : MemStore ReplicaSet) (name : String)
    (o0 o : ReplicaSet) (spec : k8sControllerSpec) (e : Error) {r : Int}
    (hl : s.lookup (fun x => x.Meta.Name) name = some o0) (hn : o.Meta.Name = name)
    (hr : o.Spec.Replicas = some r)
    (hres : spec.isResize = true) (h0 : s.outcome 0 = none) (h1 : s.outcome 1 = some e) :
    ((⟨rsClient, some o⟩ : replicaSet (MemStore ReplicaSet)).update spec s).ret
      = .ret (some e) ∧
    ((⟨rsClient, some o⟩ : replicaSet (MemStore ReplicaSet)).update spec s).calls.length = 2 ∧
    ((⟨rsClient, some o⟩ : replicaSet (MemStore ReplicaSet)).update spec s).store.lookup
      (fun x => x.Meta.Name) name = some (o.setReplicas 0) := by
  have hl1 : s.lookup (fun x : ReplicaSet => x.Meta.Name)
      (o.setReplicas 0).Meta.Name = some o0 := by
    rw [rsObj_setReplicas_meta, hn]; exact hl
  have hU1 : rsClient.Update (o.setReplicas 0) s
      = ((some (o.setReplicas 0), none),
         ⟨MemStore.put (fun x => x.Meta.Name) (o.setReplicas 0) s.objects, s.script.tail⟩) :=
    MemStore.client_Update_ok (fun x : ReplicaSet => x.Meta.Name)
      ReplicaSet.empty s (o.setReplicas 0) o0 h0 hl1
  have hU2 : rsClient.Update
      (((o.setReplicas 0).setReplicas spec.replicas).setPodSpec spec.podSpec)
      ⟨MemStore.put (fun x => x.Meta.Name) (o.setReplicas 0) s.objects, s.script.tail⟩
      = ((some ReplicaSet.empty, some e),
         ⟨MemStore.put (fun x => x.Meta.Name) (o.setReplicas 0) s.objects,
          s.script.tail.tail⟩) :=
    MemStore.client_Update_err (fun x : ReplicaSet => x.Meta.Name)
      ReplicaSet.empty _ _ e ((MemStore.outcome_tail s _ 0).trans h1)
  rw [rs_resize_two_writes ⟨rsClient, some o⟩ spec s hres rfl hr hU1
    (rsObj_setReplicas_replicas o 0) hU2]
  refine ⟨rfl, rfl, ?_⟩
  exact MemStore.put_find (fun x : ReplicaSet => x.Meta.Name) (o.setReplicas 0)
    s.objects name hn (by
      have := hl
      unfold MemStore.lookup at this
      rw [this]; rfl)

end InPlace

/-! ## The claims -/

/-- C1 fails as stated: after fetching "web" (3 replicas of `T1`), a caller that
writes the resized container into the returned spec in place, then asks for 5
replicas with `isResize`, makes `update` issue `replace(0, T2)` then
`replace(5, T2)`: the first write carries the new template, not the old one. -/
theorem C1_counterexample :
    (rcHandle.get "web" ⟨[webRC], []⟩).ret = .ret (some ⟨3, T1, false, false⟩, none) ∧
    (rcHandle.get "web" ⟨[webRC], []⟩).self.writeContainer ⟨3, T1, false, false⟩ 0 resized
      = .ret (webInPlace, ⟨3, T2, false, false⟩) ∧
    (webInPlace.update ⟨5, T2, true, false⟩ (rcHandle.get "web" ⟨[webRC], []⟩).store).calls
      = [Call.replace ((webRC.setPodSpec T2).setReplicas 0)
           (some ((webRC.setPodSpec T2).setReplicas 0)) none,
         Call.replace ((webRC.setReplicas 5).setPodSpec T2)
           (some ((webRC.setReplicas 5).setPodSpec T2)) none] ∧
    ((webRC.setPodSpec T2).setReplicas 0).Spec.Template ≠ webRC.Spec.Template :=
  ⟨by decide, rfl, by decide, by decide⟩

/-- C1 as amended. Two-phase resize of a replication controller and of a replica
set. After a successful `get` that fetched `o`, for a spec with `isResize = true`,
when the store accepts both writes (the first answering with a controller object
`o1` that carries a replica count and a pod template), `update` returns no error
and issues exactly two replace calls, in this order. The first carries replicas `0`
and the pod template the handle retains when `update` is called: with the handle as
`get` left it that is the template of `o` (the old template); after the caller has
written a container of the returned spec in place, which the retained object
shares, it is the template so written, the one the spec now holds. The second
carries replicas `spec.replicas` and the pod specification `spec.podSpec`. -/
theorem C1_resize_first_write_carries_retained_template :
    (∀ (σ : Type) (h0 : replicationController σ) (name : String) (s0 : σ)
        (spec0 : k8sControllerSpec) (o o1 : ReplicationController)
        (spec : k8sControllerSpec) (s s1 s2 : σ) (obj2 : Option ReplicationController),
        (h0.get name s0).ret = .ret (some spec0, none) →
        (h0.client.Get name s0).1.1 = some o →
        spec.isResize = true →
        h0.client.Update (o.setReplicas 0) s = ((some o1, none), s1) →
        o1.Spec.Replicas ≠ none → o1.Spec.Template ≠ none →
        h0.client.Update ((o1.setReplicas spec.replicas).setPodSpec spec.podSpec) s1
          = ((obj2, none), s2) →
        ∃ w1 w2,
          ((h0.get name s0).self.update spec s).calls
            = [Call.replace w1 (some o1) none, Call.replace w2 obj2 none] ∧
          ((h0.get name s0).self.update spec s).ret = .ret none ∧
          w1.Spec.Replicas = some 0 ∧ w1.Spec.Template = o.Spec.Template ∧
          w2.Spec.Replicas = some spec.replicas ∧
          w2.Spec.Template.map (fun t => t.Spec) = some spec.podSpec) ∧
    (∀ (σ : Type) (h0 : replicationController σ) (name : String) (s0 : σ)
        (spec0 spec1 : k8sControllerSpec) (o o1 : ReplicationController) (i : Nat)
        (c : Container) (h1 : replicationController σ)
        (spec : k8sControllerSpec) (s s1 s2 : σ) (obj2 : Option ReplicationController),
        (h0.get name s0).ret = .ret (some spec0, none) →
        (h0.client.Get name s0).1.1 = some o →
        (h0.get name s0).self.writeContainer spec0 i c = .ret (h1, spec1) →
        spec.isResize = true →
        h0.client.Update ((o.setContainer i c).setReplicas 0) s = ((some o1, none), s1) →
        o1.Spec.Replicas ≠ none → o1.Spec.Template ≠ none →
        h0.client.Update ((o1.setReplicas spec.replicas).setPodSpec spec.podSpec) s1
          = ((obj2, none), s2) →
        ∃ w1 w2,
          (h1.update spec s).calls
            = [Call.replace w1 (some o1) none, Call.replace w2 obj2 none] ∧
          (h1.update spec s).ret = .ret none ∧
          w1.Spec.Replicas = some 0 ∧
          w1.Spec.Template = (o.setContainer i c).Spec.Template ∧
          w1.Spec.Template.map (fun t => t.Spec) = some spec1.podSpec ∧
          w2.Spec.Replicas = some spec.replicas ∧
          w2.Spec.Template.map (fun t => t.Spec) = some spec.podSpec) ∧
    (∀ (σ : Type) (h0 : replicaSet σ) (name : String) (s0 : σ)
        (spec0 : k8sControllerSpec) (o o1 : ReplicaSet)
        (spec : k8sControllerSpec) (s s1 s2 : σ) (obj2 : Option ReplicaSet),
        (h0.get name s0).ret = .ret (some spec0, none) →
        (h0.client.Get name s0).1.1 = some o →
        spec.isResize = true →
        h0.client.Update (o.setReplicas 0) s = ((some o1, none), s1) →
        o1.Spec.Replicas ≠ none →
        h0.client.Update ((o1.setReplicas spec.replicas).setPodSpec spec.podSpec) s1
          = ((obj2, none), s2) →
        ∃ w1 w2,
          ((h0.get name s0).self.update spec s).calls
            = [Call.replace w1 (some o1) none, Call.replace w2 obj2 none] ∧
          ((h0.get name s0).self.update spec s).ret = .ret none ∧
          w1.Spec.Replicas = some 0 ∧ w1.Spec.Template = o.Spec.Template ∧
          w2.Spec.Replicas = some spec.replicas ∧
          w2.Spec.Template.Spec = spec.podSpec) ∧
    (∀ (σ : Type) (h0 : replicaSet σ) (name : String) (s0 : σ)
        (spec0 spec1 : k8sControllerSpec) (o o1 : ReplicaSet) (i : Nat)
        (c : Container) (h1 : replicaSet σ)
        (spec : k8sControllerSpec) (s s1 s2 : σ) (obj2 : Option ReplicaSet),
        (h0.get name s0).ret = .ret (some spec0, none) →
        (h0.client.Get name s0).1.1 = some o →
        (h0.get name s0).self.writeContainer spec0 i c = .ret (h1, spec1) →
        spec.isResize = true →
        h0.client.Update ((o.setContainer i c).setReplicas 0) s = ((some o1, none), s1) →
        o1.Spec.Replicas ≠ none →
        h0.client.Update ((o1.setReplicas spec.replicas).setPodSpec spec.podSpec) s1
          = ((obj2, none), s2) →
        ∃ w1 w2,
          (h1.update spec s).calls
            = [Call.replace w1 (some o1) none, Call.replace w2 obj2 none] ∧
          (h1.update spec s).ret = .ret none ∧
          w1.Spec.Replicas = some 0 ∧
          w1.Spec.Template = (o.setContainer i c).Spec.Template ∧
          w1.Spec.Template.Spec = spec1.podSpec ∧
          w2.Spec.Replicas = some spec.replicas ∧
          w2.Spec.Template.Spec = spec.podSpec) := by
  refine ⟨?_, ?_, ?_, ?_⟩
  · intro σ h0 name s0 spec0 o o1 spec s s1 s2 obj2 hret ho hres hw1 hr1 ht1 hw2
    obtain ⟨hself, hr, _⟩ := rc_get_ret_inv hret ho
    obtain ⟨r1, hr1⟩ := Option.ne_none_iff_exists'.mp hr1
    obtain ⟨t1, ht1⟩ := Option.ne_none_iff_exists'.mp ht1
    refine ⟨o.setReplicas 0, (o1.setReplicas spec.replicas).setPodSpec spec.podSpec, ?_⟩
    rw [hself, rc_resize_two_writes ⟨h0.client, some o⟩ spec s hres rfl hr hw1 hr1 ht1 hw2]
    simp [ht1]
  · intro σ h0 name s0 spec0 spec1 o o1 i c h1 spec s s1 s2 obj2 hret ho hwr hres hw1 hr1 ht1
      hw2
    obtain ⟨hself, hr, t, ht, hp⟩ := rc_get_ret_inv hret ho
    obtain ⟨r1, hr1⟩ := Option.ne_none_iff_exists'.mp hr1
    obtain ⟨t1, ht1⟩ := Option.ne_none_iff_exists'.mp ht1
    rw [hself] at hwr
    obtain ⟨rfl, hp1⟩ := rc_write_inv hwr
    refine ⟨(o.setContainer i c).setReplicas 0,
      (o1.setReplicas spec.replicas).setPodSpec spec.podSpec, ?_⟩
    rw [rc_resize_two_writes ⟨h0.client, some (o.setContainer i c)⟩ spec s hres rfl
      ((rcObj_setContainer_replicas o i c).trans hr) hw1 hr1 ht1 hw2]
    simp [ht1, ht, hp1, hp]
  · intro σ h0 name s0 spec0 o o1 spec s s1 s2 obj2 hret ho hres hw1 hr1 hw2
    obtain ⟨hself, hr, _⟩ := rs_get_ret_inv hret ho
    obtain ⟨r1, hr1⟩ := Option.ne_none_iff_exists'.mp hr1
    refine ⟨o.setReplicas 0, (o1.setReplicas spec.replicas).setPodSpec spec.podSpec, ?_⟩
    rw [hself, rs_resize_two_writes ⟨h0.client, some o⟩ spec s hres rfl hr hw1 hr1 hw2]
    simp
  · intro σ h0 name s0 spec0 spec1 o o1 i c h1 spec s s1 s2 obj2 hret ho hwr hres hw1 hr1 hw2
    obtain ⟨hself, hr, hp⟩ := rs_get_ret_inv hret ho
    obtain ⟨r1, hr1⟩ := Option.ne_none_iff_exists'.mp hr1
    rw [hself] at hwr
    obtain ⟨rfl, hp1⟩ := rs_write_inv hwr
    refine ⟨(o.setContainer i c).setReplicas 0,
      (o1.setReplicas spec.replicas).setPodSpec spec.podSpec, ?_⟩
    rw [rs_resize_two_writes ⟨h0.client, some (o.setContainer i c)⟩ spec s hres rfl
      ((rsObj_setContainer_replicas o i c).trans hr) hw1 hr1 hw2]
    simp [hp1, hp]

/-- Witness of amended C1 on the replication controller "web" at 3 replicas of
`T1`, resized to 5 replicas of `T2`: a caller that hands over a spec built apart
from the returned one gets `replace(0, T1)` then `replace(5, T2)`; a caller that
wrote the returned spec in place gets `replace(0, T2)` then `replace(5, T2)`. -/
theorem C1_resize_first_write_carries_retained_template_witness :
    (∃ w1 w2,
      ((rcHandle.get "web" ⟨[webRC], []⟩).self.update ⟨5, T2, true, false⟩ ⟨[webRC], []⟩).calls
        = [Call.replace w1 (some (webRC.setReplicas 0)) none,
           Call.replace w2 (some ((webRC.setReplicas 5).setPodSpec T2)) none] ∧
      ((rcHandle.get "web" ⟨[webRC], []⟩).self.update ⟨5, T2, true, false⟩ ⟨[webRC], []⟩).ret
        = .ret none ∧
      w1.Spec.Replicas = some 0 ∧ w1.Spec.Template = webRC.Spec.Template ∧
      w2.Spec.Replicas = some 5 ∧ w2.Spec.Template.map (fun t => t.Spec) = some T2) ∧
    (∃ w1 w2,
      (webInPlace.update ⟨5, T2, true, false⟩ ⟨[webRC], []⟩).calls
        = [Call.replace w1 (some ((webRC.setPodSpec T2).setReplicas 0)) none,
           Call.replace w2 (some ((webRC.setReplicas 5).setPodSpec T2)) none] ∧
      (webInPlace.update ⟨5, T2, true, false⟩ ⟨[webRC], []⟩).ret = .ret none ∧
      w1.Spec.Replicas = some 0 ∧
      w1.Spec.Template = (webRC.setContainer 0 resized).Spec.Template ∧
      w1.Spec.Template.map (fun t => t.Spec) = some T2 ∧
      w2.Spec.Replicas = some 5 ∧ w2.Spec.Template.map (fun t => t.Spec) = some T2) :=
  ⟨C1_resize_first_write_carries_retained_template.1 (MemStore ReplicationController)
      rcHandle "web" ⟨[webRC], []⟩ ⟨3, T1, false, false⟩ webRC (webRC.setReplicas 0)
      ⟨5, T2, true, false⟩ ⟨[webRC], []⟩ ⟨[webRC.setReplicas 0], []⟩
      ⟨[(webRC.setReplicas 5).setPodSpec T2], []⟩ (some ((webRC.setReplicas 5).setPodSpec T2))
      rfl rfl rfl rfl (by decide) (by decide) rfl,
   C1_resize_first_write_carries_retained_template.2.1 (MemStore ReplicationController)
      rcHandle "web" ⟨[webRC], []⟩ ⟨3, T1, false, false⟩ ⟨3, T2, false, false⟩ webRC
      ((webRC.setPodSpec T2).setReplicas 0) 0 resized webInPlace
      ⟨5, T2, true, false⟩ ⟨[webRC], []⟩ ⟨[(webRC.setPodSpec T2).setReplicas 0], []⟩
      ⟨[(webRC.setReplicas 5).setPodSpec T2], []⟩ (some ((webRC.setReplicas 5).setPodSpec T2))
      rfl rfl rfl rfl rfl (by decide) (by decide) rfl⟩

/-- C2 fails as stated: after fetching "cache" (4 replicas of `T1`), a caller that
writes the resized container into the returned spec in place, then asks for 6
replicas with `isResize`, against a store whose next write times out: the one
request `update` sends, which fails, already carries the new template `T2`. -/
theorem C2_counterexample :
    (rsHandle.get "cache" ⟨[cacheRS], [none, some timeout]⟩).ret
      = .ret (some ⟨4, T1, false, false⟩, none) ∧
    (rsHandle.get "cache" ⟨[cacheRS], [none, some timeout]⟩).self.writeContainer
        ⟨4, T1, false, false⟩ 0 resized
      = .ret (cacheInPlace, ⟨4, T2, false, false⟩) ∧
    (cacheInPlace.update ⟨6, T2, true, false⟩
        (rsHandle.get "cache" ⟨[cacheRS], [none, some timeout]⟩).store).calls
      = [Call.replace ((cacheRS.setPodSpec T2).setReplicas 0) (some ReplicaSet.empty)
           (some timeout)] ∧
    ((cacheRS.setPodSpec T2).setReplicas 0).Spec.Template.Spec = T2 ∧
    T2 ≠ cacheRS.Spec.Template.Spec :=
  ⟨by decide, rfl, by decide, by decide, by decide⟩

/-- C2 as amended. Abort of a two-phase resize (replication controller and replica
set). After a successful `get` that fetched `o`, for a spec with `isResize = true`,
when the scale-to-zero write fails with error `e`, `update` issues exactly one
replace call, returns the failure `e` and leaves the store as that failed call left
it; no second request is sent. The one request carries replicas `0` and the pod
template the handle retains when `update` is called: with the handle as `get` left
it that is the template of `o` (the old template); after the caller has written a
container of the returned spec in place it is the template so written, so the
rejected request then carries the new one. -/
theorem C2_failed_scale_down_aborts :
    (∀ (σ : Type) (h0 : replicationController σ) (name : String) (s0 : σ)
        (spec0 : k8sControllerSpec) (o : ReplicationController)
        (spec : k8sControllerSpec) (s s1 : σ) (obj : Option ReplicationController) (e : Error),
        (h0.get name s0).ret = .ret (some spec0, none) →
        (h0.client.Get name s0).1.1 = some o →
        spec.isResize = true →
        h0.client.Update (o.setReplicas 0) s = ((obj, some e), s1) →
        ∃ w,
          ((h0.get name s0).self.update spec s).calls = [Call.replace w obj (some e)] ∧
          w.Spec.Replicas = some 0 ∧ w.Spec.Template = o.Spec.Template ∧
          ((h0.get name s0).self.update spec s).ret = .ret (some e) ∧
          ((h0.get name s0).self.update spec s).store = s1) ∧
    (∀ (σ : Type) (h0 : replicationController σ) (name : String) (s0 : σ)
        (spec0 spec1 : k8sControllerSpec) (o : ReplicationController) (i : Nat)
        (c : Container) (h1 : replicationController σ)
        (spec : k8sControllerSpec) (s s1 : σ) (obj : Option ReplicationController) (e : Error),
        (h0.get name s0).ret = .ret (some spec0, none) →
        (h0.client.Get name s0).1.1 = some o →
        (h0.get name s0).self.writeContainer spec0 i c = .ret (h1, spec1) →
        spec.isResize = true →
        h0.client.Update ((o.setContainer i c).setReplicas 0) s = ((obj, some e), s1) →
        ∃ w,
          (h1.update spec s).calls = [Call.replace w obj (some e)] ∧
          w.Spec.Replicas = some 0 ∧
          w.Spec.Template = (o.setContainer i c).Spec.Template ∧
          w.Spec.Template.map (fun t => t.Spec) = some spec1.podSpec ∧
          (h1.update spec s).ret = .ret (some e) ∧
          (h1.update spec s).store = s1) ∧
    (∀ (σ : Type) (h0 : replicaSet σ) (name : String) (s0 : σ)
        (spec0 : k8sControllerSpec) (o : ReplicaSet)
        (spec : k8sControllerSpec) (s s1 : σ) (obj : Option ReplicaSet) (e : Error),
        (h0.get name s0).ret = .ret (some spec0, none) →
        (h0.client.Get name s0).1.1 = some o →
        spec.isResize = true →
        h0.client.Update (o.setReplicas 0) s = ((obj, some e), s1) →
        ∃ w,
          ((h0.get name s0).self.update spec s).calls = [Call.replace w obj (some e)] ∧
          w.Spec.Replicas = some 0 ∧ w.Spec.Template = o.Spec.Template ∧
          ((h0.get name s0).self.update spec s).ret = .ret (some e) ∧
          ((h0.get name s0).self.update spec s).store = s1) ∧
    (∀ (σ : Type) (h0 : replicaSet σ) (name : String) (s0 : σ)
        (spec0 spec1 : k8sControllerSpec) (o : ReplicaSet) (i : Nat)
        (c : Container) (h1 : replicaSet σ)
        (spec : k8sControllerSpec) (s s1 : σ) (obj : Option ReplicaSet) (e : Error),
        (h0.get name s0).ret = .ret (some spec0, none) →
        (h0.client.Get name s0).1.1 = some o →
        (h0.get name s0).self.writeContainer spec0 i c = .ret (h1, spec1) →
        spec.isResize = true →
        h0.client.Update ((o.setContainer i c).setReplicas 0) s = ((obj, some e), s1) →
        ∃ w,
          (h1.update spec s).calls = [Call.replace w obj (some e)] ∧
          w.Spec.Replicas = some 0 ∧
          w.Spec.Template = (o.setContainer i c).Spec.Template ∧
          w.Spec.Template.Spec = spec1.podSpec ∧
          (h1.update spec s).ret = .ret (some e) ∧
          (h1.update spec s).store = s1) := by
  refine ⟨?_, ?_, ?_, ?_⟩
  · intro σ h0 name s0 spec0 o spec s s1 obj e hret ho hres hw1
    obtain ⟨hself, hr, _⟩ := rc_get_ret_inv hret ho
    refine ⟨o.setReplicas 0, ?_⟩
    rw [hself, rc_update_resize_err ⟨h0.client, some o⟩ spec s hres rfl hr hw1]
    simp
  · intro σ h0 name s0 spec0 spec1 o i c h1 spec s s1 obj e hret ho hwr hres hw1
    obtain ⟨hself, hr, t, ht, hp⟩ := rc_get_ret_inv hret ho
    rw [hself] at hwr
    obtain ⟨rfl, hp1⟩ := rc_write_inv hwr
    refine ⟨(o.setContainer i c).setReplicas 0, ?_⟩
    rw [rc_update_resize_err ⟨h0.client, some (o.setContainer i c)⟩ spec s hres rfl
      ((rcObj_setContainer_replicas o i c).trans hr) hw1]
    simp [ht, hp1, hp]
  · intro σ h0 name s0 spec0 o spec s s1 obj e hret ho hres hw1
    obtain ⟨hself, hr, _⟩ := rs_get_ret_inv hret ho
    refine ⟨o.setReplicas 0, ?_⟩
    rw [hself, rs_update_resize_err ⟨h0.client, some o⟩ spec s hres rfl hr hw1]
    simp
  · intro σ h0 name s0 spec0 spec1 o i c h1 spec s s1 obj e hret ho hwr hres hw1
    obtain ⟨hself, hr, hp⟩ := rs_get_ret_inv hret ho
    rw [hself] at hwr
    obtain ⟨rfl, hp1⟩ := rs_write_inv hwr
    refine ⟨(o.setContainer i c).setReplicas 0, ?_⟩
    rw [rs_update_resize_err ⟨h0.client, some (o.setContainer i c)⟩ spec s hres rfl
      ((rsObj_setContainer_replicas o i c).trans hr) hw1]
    simp [hp1, hp]

/-- Witness of amended C2 on the replica set "cache" with a timeout on the first
write: one rejected request, carrying `T1` for a spec built apart from the returned
one and `T2` after an in-place write. -/
theorem C2_failed_scale_down_aborts_witness :
    (∃ w,
      ((rsHandle.get "cache" ⟨[cacheRS], []⟩).self.update ⟨6, T2, true, false⟩
          ⟨[cacheRS], [some timeout]⟩).calls
        = [Call.replace w (some ReplicaSet.empty) (some timeout)] ∧
      w.Spec.Replicas = some 0 ∧ w.Spec.Template = cacheRS.Spec.Template ∧
      ((rsHandle.get "cache" ⟨[cacheRS], []⟩).self.update ⟨6, T2, true, false⟩
          ⟨[cacheRS], [some timeout]⟩).ret = .ret (some timeout) ∧
      ((rsHandle.get "cache" ⟨[cacheRS], []⟩).self.update ⟨6, T2, true, false⟩
          ⟨[cacheRS], [some timeout]⟩).store = ⟨[cacheRS], []⟩) ∧
    (∃ w,
      (cacheInPlace.update ⟨6, T2, true, false⟩ ⟨[cacheRS], [some timeout]⟩).calls
        = [Call.replace w (some ReplicaSet.empty) (some timeout)] ∧
      w.Spec.Replicas = some 0 ∧
      w.Spec.Template = (cacheRS.setContainer 0 resized).Spec.Template ∧
      w.Spec.Template.Spec = T2 ∧
      (cacheInPlace.update ⟨6, T2, true, false⟩ ⟨[cacheRS], [some timeout]⟩).ret
        = .ret (some timeout) ∧
      (cacheInPlace.update ⟨6, T2, true, false⟩ ⟨[cacheRS], [some timeout]⟩).store
        = ⟨[cacheRS], []⟩) :=
  ⟨C2_failed_scale_down_aborts.2.2.1 (MemStore ReplicaSet) rsHandle "cache" ⟨[cacheRS], []⟩
      ⟨4, T1, false, false⟩ cacheRS ⟨6, T2, true, false⟩ ⟨[cacheRS], [some timeout]⟩
      ⟨[cacheRS], []⟩ (some ReplicaSet.empty) timeout rfl rfl rfl rfl,
   C2_failed_scale_down_aborts.2.2.2 (MemStore ReplicaSet) rsHandle "cache" ⟨[cacheRS], []⟩
      ⟨4, T1, false, false⟩ ⟨4, T2, false, false⟩ cacheRS 0 resized cacheInPlace
      ⟨6, T2, true, false⟩ ⟨[cacheRS], [some timeout]⟩ ⟨[cacheRS], []⟩
      (some ReplicaSet.empty) timeout rfl rfl rfl rfl rfl⟩

/-- C3. The deployment handle writes once. After a successful `get` retaining `o`,
for every spec, `update` issues exactly one replace call, carrying replicas
`spec.replicas` and pod specification `spec.podSpec`, and returns what that call
returned; the whole run (result, receiver, store, calls) is the same whatever the
value of `isResize`, so no scale-to-zero write is ever made as a detour. -/
theorem C3_deployment_single_write (σ : Type) (h : deployment σ) (o : Deployment)
    (spec : k8sControllerSpec) (s : σ) (hf : h.fetched o) :
    (∃ w obj err,
      (h.update spec s).calls = [Call.replace w obj err] ∧
      w.Spec.Replicas = some spec.replicas ∧ w.Spec.Template.Spec = spec.podSpec ∧
      (h.update spec s).ret = .ret err ∧
      h.client.Update w s = ((obj, err), (h.update spec s).store)) ∧
    ∀ b : Bool, h.update { spec with isResize := b } s = h.update spec s := by
  obtain ⟨ho, ⟨r, hr⟩⟩ := dep_fetched_inv hf
  refine ⟨⟨(o.setReplicas spec.replicas).setPodSpec spec.podSpec,
    (h.client.Update ((o.setReplicas spec.replicas).setPodSpec spec.podSpec) s).1.1,
    (h.client.Update ((o.setReplicas spec.replicas).setPodSpec spec.podSpec) s).1.2, ?_⟩,
    fun b => rfl⟩
  rw [dep_update_eq h spec s ho hr rfl]
  simp

/-- Witness of C3: the deployment "api" at 2 replicas resized to 2 replicas with
template `T3` yields `replace(2, T3)` only. -/
theorem C3_deployment_single_write_witness :
    ((depHandle.get "api" ⟨[apiDep], []⟩).self.update ⟨2, T3, true, false⟩ ⟨[apiDep], []⟩).calls
        = [Call.replace ((apiDep.setReplicas 2).setPodSpec T3)
            (some ((apiDep.setReplicas 2).setPodSpec T3)) none] ∧
    ((∃ w obj err,
      ((depHandle.get "api" ⟨[apiDep], []⟩).self.update ⟨2, T3, true, false⟩
          ⟨[apiDep], []⟩).calls = [Call.replace w obj err] ∧
      w.Spec.Replicas = some 2 ∧ w.Spec.Template.Spec = T3 ∧
      ((depHandle.get "api" ⟨[apiDep], []⟩).self.update ⟨2, T3, true, false⟩
          ⟨[apiDep], []⟩).ret = .ret err ∧
      (depHandle.get "api" ⟨[apiDep], []⟩).self.client.Update w ⟨[apiDep], []⟩
        = ((obj, err),
           ((depHandle.get "api" ⟨[apiDep], []⟩).self.update ⟨2, T3, true, false⟩
              ⟨[apiDep], []⟩).store)) ∧
    ∀ b : Bool,
      (depHandle.get "api" ⟨[apiDep], []⟩).self.update ⟨2, T3, b, false⟩ ⟨[apiDep], []⟩
        = (depHandle.get "api" ⟨[apiDep], []⟩).self.update ⟨2, T3, true, false⟩
            ⟨[apiDep], []⟩) :=
  ⟨by decide,
   C3_deployment_single_write (MemStore Deployment) (depHandle.get "api" ⟨[apiDep], []⟩).self
    apiDep ⟨2, T3, true, false⟩ ⟨[apiDep], []⟩
    ⟨depHandle, "api", ⟨[apiDep], []⟩, ⟨2, T1, false, false⟩, rfl, rfl, rfl⟩⟩

/-- C4. Plain scale. For each of the three handles, after a successful `get`
retaining `o`, for a spec with `isResize = false`, `update` issues exactly one
replace call, carrying replicas `spec.replicas` and pod specification
`spec.podSpec`, and the result of `update` is the error value of that one call. -/
theorem C4_scale_single_write :
    (∀ (σ : Type) (h : replicationController σ) (o : ReplicationController)
        (spec : k8sControllerSpec) (s : σ),
        h.fetched o → spec.isResize = false →
        ∃ w obj err,
          (h.update spec s).calls = [Call.replace w obj err] ∧
          w.Spec.Replicas = some spec.replicas ∧
          w.Spec.Template.map (fun t => t.Spec) = some spec.podSpec ∧
          (h.update spec s).ret = .ret err ∧
          h.client.Update w s = ((obj, err), (h.update spec s).store)) ∧
    (∀ (σ : Type) (h : replicaSet σ) (o : ReplicaSet) (spec : k8sControllerSpec) (s : σ),
        h.fetched o → spec.isResize = false →
        ∃ w obj err,
          (h.update spec s).calls = [Call.replace w obj err] ∧
          w.Spec.Replicas = some spec.replicas ∧ w.Spec.Template.Spec = spec.podSpec ∧
          (h.update spec s).ret = .ret err ∧
          h.client.Update w s = ((obj, err), (h.update spec s).store)) ∧
    (∀ (σ : Type) (h : deployment σ) (o : Deployment) (spec : k8sControllerSpec) (s : σ),
        h.fetched o → spec.isResize = false →
        ∃ w obj err,
          (h.update spec s).calls = [Call.replace w obj err] ∧
          w.Spec.Replicas = some spec.replicas ∧ w.Spec.Template.Spec = spec.podSpec ∧
          (h.update spec s).ret = .ret err ∧
          h.client.Update w s = ((obj, err), (h.update spec s).store)) := by
  refine ⟨?_, ?_, ?_⟩
  · intro σ h o spec s hf hres
    obtain ⟨ho, ⟨r, hr⟩, ⟨t, ht⟩⟩ := rc_fetched_inv hf
    refine ⟨(o.setReplicas spec.replicas).setPodSpec spec.podSpec,
      (h.client.Update ((o.setReplicas spec.replicas).setPodSpec spec.podSpec) s).1.1,
      (h.client.Update ((o.setReplicas spec.replicas).setPodSpec spec.podSpec) s).1.2, ?_⟩
    rw [rc_update_scale h spec s hres,
      rc_reapply_eq h spec s [] ho hr ht rfl]
    simp [ht]
  · intro σ h o spec s hf hres
    obtain ⟨ho, ⟨r, hr⟩⟩ := rs_fetched_inv hf
    refine ⟨(o.setReplicas spec.replicas).setPodSpec spec.podSpec,
      (h.client.Update ((o.setReplicas spec.replicas).setPodSpec spec.podSpec) s).1.1,
      (h.client.Update ((o.setReplicas spec.replicas).setPodSpec spec.podSpec) s).1.2, ?_⟩
    rw [rs_update_scale h spec s hres, rs_reapply_eq h spec s [] ho hr rfl]
    simp
  · intro σ h o spec s hf _
    obtain ⟨ho, ⟨r, hr⟩⟩ := dep_fetched_inv hf
    refine ⟨(o.setReplicas spec.replicas).setPodSpec spec.podSpec,
      (h.client.Update ((o.setReplicas spec.replicas).setPodSpec spec.podSpec) s).1.1,
      (h.client.Update ((o.setReplicas spec.replicas).setPodSpec spec.podSpec) s).1.2, ?_⟩
    rw [dep_update_eq h spec s ho hr rfl]
    simp

/-- Witness of C4: the replica set "cache" scaled from 4 to 1 replicas yields only
`replace(1, unchanged template)`. -/
theorem C4_scale_single_write_witness :
    ((rsHandle.get "cache" ⟨[cacheRS], []⟩).self.update ⟨1, T1, false, false⟩
        ⟨[cacheRS], []⟩).calls
      = [Call.replace (cacheRS.setReplicas 1) (some (cacheRS.setReplicas 1)) none] ∧
    ∃ w obj err,
      ((rsHandle.get "cache" ⟨[cacheRS], []⟩).self.update ⟨1, T1, false, false⟩
          ⟨[cacheRS], []⟩).calls = [Call.replace w obj err] ∧
      w.Spec.Replicas = some 1 ∧ w.Spec.Template.Spec = T1 ∧
      ((rsHandle.get "cache" ⟨[cacheRS], []⟩).self.update ⟨1, T1, false, false⟩
          ⟨[cacheRS], []⟩).ret = .ret err ∧
      (rsHandle.get "cache" ⟨[cacheRS], []⟩).self.client.Update w ⟨[cacheRS], []⟩
        = ((obj, err),
           ((rsHandle.get "cache" ⟨[cacheRS], []⟩).self.update ⟨1, T1, false, false⟩
              ⟨[cacheRS], []⟩).store) :=
  ⟨by decide,
   C4_scale_single_write.2.1 (MemStore ReplicaSet) (rsHandle.get "cache" ⟨[cacheRS], []⟩).self
    cacheRS ⟨1, T1, false, false⟩ ⟨[cacheRS], []⟩
    ⟨rsHandle, "cache", ⟨[cacheRS], []⟩, ⟨4, T1, false, false⟩, rfl, rfl, rfl⟩ rfl⟩

/-- C5. Identity update against the in-memory store, for each of the three
handles. Let the store hold a controller `o` under `name` with a replica count, and
let the next two remote calls go through. Then `get name` followed by `update` with
the spec that `get` returned succeeds and leaves the replica count and the pod
template stored under `name` equal to what they were before the `get`. For the
replica set and the deployment `get` always returns a spec here; for the
replication controller it does so whenever the template pointer of `o` is not nil,
and `get` itself never changes the stored objects. -/
theorem C5_get_then_update_is_identity :
    (∀ (rc0 : Option ReplicationController) (s : MemStore ReplicationController)
        (name : String) (o : ReplicationController),
        s.lookup (fun x => x.Meta.Name) name = some o → o.Spec.Replicas ≠ none →
        s.outcome 0 = none → s.outcome 1 = none →
        let g := (⟨rcClient, rc0⟩ : replicationController (MemStore ReplicationController)).get
          name s
        g.store.objects = s.objects ∧
        (o.Spec.Template ≠ none → ∃ spec, g.ret = .ret (some spec, none)) ∧
        ∀ spec, g.ret = .ret (some spec, none) →
          (g.self.update spec g.store).ret = .ret none ∧
          ((g.self.update spec g.store).store.lookup (fun x => x.Meta.Name) name).map
              (fun x => x.Spec.Replicas)
            = (s.lookup (fun x => x.Meta.Name) name).map (fun x => x.Spec.Replicas) ∧
          ((g.self.update spec g.store).store.lookup (fun x => x.Meta.Name) name).map
              (fun x => x.Spec.Template)
            = (s.lookup (fun x => x.Meta.Name) name).map (fun x => x.Spec.Template)) ∧
    (∀ (rs0 : Option ReplicaSet) (s : MemStore ReplicaSet) (name : String) (o : ReplicaSet),
        s.lookup (fun x => x.Meta.Name) name = some o → o.Spec.Replicas ≠ none →
        s.outcome 0 = none → s.outcome 1 = none →
        let g := (⟨rsClient, rs0⟩ : replicaSet (MemStore ReplicaSet)).get name s
        ∃ spec, g.ret = .ret (some spec, none) ∧
          (g.self.update spec g.store).ret = .ret none ∧
          ((g.self.update spec g.store).store.lookup (fun x => x.Meta.Name) name).map
              (fun x => x.Spec.Replicas)
            = (s.lookup (fun x => x.Meta.Name) name).map (fun x => x.Spec.Replicas) ∧
          ((g.self.update spec g.store).store.lookup (fun x => x.Meta.Name) name).map
              (fun x => x.Spec.Template)
            = (s.lookup (fun x => x.Meta.Name) name).map (fun x => x.Spec.Template)) ∧
    (∀ (dep0 : Option Deployment) (s : MemStore Deployment) (name : String) (o : Deployment),
        s.lookup (fun x => x.Meta.Name) name = some o → o.Spec.Replicas ≠ none →
        s.outcome 0 = none → s.outcome 1 = none →
        let g := (⟨depClient, dep0⟩ : deployment (MemStore Deployment)).get name s
        ∃ spec, g.ret = .ret (some spec, none) ∧
          (g.self.update spec g.store).ret = .ret none ∧
          ((g.self.update spec g.store).store.lookup (fun x => x.Meta.Name) name).map
              (fun x => x.Spec.Replicas)
            = (s.lookup (fun x => x.Meta.Name) name).map (fun x => x.Spec.Replicas) ∧
          ((g.self.update spec g.store).store.lookup (fun x => x.Meta.Name) name).map
              (fun x => x.Spec.Template)
            = (s.lookup (fun x => x.Meta.Name) name).map (fun x => x.Spec.Template)) := by
  refine ⟨?_, ?_, ?_⟩
  · intro rc0 s name o hl hr h0 h1
    obtain ⟨r, hr⟩ := Option.ne_none_iff_exists'.mp hr
    have hname : o.Meta.Name = name :=
      MemStore.name_of_lookup (fun x : ReplicationController => x.Meta.Name) hl
    have hl1 : MemStore.lookup (fun x : ReplicationController => x.Meta.Name)
        ⟨s.objects, s.script.tail⟩ o.Meta.Name = some o := by rw [hname]; exact hl
    have hU := MemStore.client_Update_ok (fun x : ReplicationController => x.Meta.Name)
      ReplicationController.empty ⟨s.objects, s.script.tail⟩ o o
      ((MemStore.outcome_tail s s.objects 0).trans h1) hl1
    have hput : MemStore.put (fun x : ReplicationController => x.Meta.Name) o s.objects
        = s.objects := MemStore.put_same _ o s.objects (by rw [hname]; exact hl)
    simp only [hput] at hU
    simp only [rc_get_mem rc0 s name o h0 hl]
    refine ⟨trivial, ?_, ?_⟩
    · intro ht
      obtain ⟨t, ht⟩ := Option.ne_none_iff_exists'.mp ht
      exact ⟨⟨r, t.Spec, false, false⟩, by simp [hr, ht]⟩
    · intro spec hret
      cases ht : o.Spec.Template with
      | none => simp [hr, ht] at hret
      | some t =>
        simp only [hr, ht, Result.ret.injEq, Prod.mk.injEq, Option.some.injEq, and_true] at hret
        subst hret
        have hW : (o.setReplicas r).setPodSpec t.Spec = o := rcObj_set_self hr ht
        have hU1 : rcClient.Update ((o.setReplicas r).setPodSpec t.Spec)
            ⟨s.objects, s.script.tail⟩ = ((some o, none), ⟨s.objects, s.script.tail.tail⟩) := by
          rw [hW]; exact hU
        rw [rc_update_scale _ _ _ rfl,
          rc_reapply_eq ⟨rcClient, some o⟩ ⟨r, t.Spec, false, false⟩ _ []
            rfl hr ht hU1]
        simp [MemStore.lookup, hl]
  · intro rs0 s name o hl hr h0 h1
    obtain ⟨r, hr⟩ := Option.ne_none_iff_exists'.mp hr
    have hname : o.Meta.Name = name :=
      MemStore.name_of_lookup (fun x : ReplicaSet => x.Meta.Name) hl
    have hl1 : MemStore.lookup (fun x : ReplicaSet => x.Meta.Name)
        ⟨s.objects, s.script.tail⟩ o.Meta.Name = some o := by rw [hname]; exact hl
    have hU := MemStore.client_Update_ok (fun x : ReplicaSet => x.Meta.Name)
      ReplicaSet.empty ⟨s.objects, s.script.tail⟩ o o
      ((MemStore.outcome_tail s s.objects 0).trans h1) hl1
    have hput : MemStore.put (fun x : ReplicaSet => x.Meta.Name) o s.objects
        = s.objects := MemStore.put_same _ o s.objects (by rw [hname]; exact hl)
    simp only [hput] at hU
    simp only [rs_get_mem rs0 s name o h0 hl]
    refine ⟨⟨r, o.Spec.Template.Spec, false, false⟩, by simp [hr], ?_⟩
    have hW : (o.setReplicas r).setPodSpec o.Spec.Template.Spec = o := rsObj_set_self hr
    have hU1 : rsClient.Update ((o.setReplicas r).setPodSpec o.Spec.Template.Spec)
        ⟨s.objects, s.script.tail⟩ = ((some o, none), ⟨s.objects, s.script.tail.tail⟩) := by
      rw [hW]; exact hU
    rw [rs_update_scale _ _ _ rfl,
      rs_reapply_eq ⟨rsClient, some o⟩ ⟨r, o.Spec.Template.Spec, false, false⟩ _ []
        rfl hr hU1]
    simp [MemStore.lookup, hl]
  · intro dep0 s name o hl hr h0 h1
    obtain ⟨r, hr⟩ := Option.ne_none_iff_exists'.mp hr
    have hname : o.Meta.Name = name :=
      MemStore.name_of_lookup (fun x : Deployment => x.Meta.Name) hl
    have hl1 : MemStore.lookup (fun x : Deployment => x.Meta.Name)
        ⟨s.objects, s.script.tail⟩ o.Meta.Name = some o := by rw [hname]; exact hl
    have hU := MemStore.client_Update_ok (fun x : Deployment => x.Meta.Name)
      Deployment.empty ⟨s.objects, s.script.tail⟩ o o
      ((MemStore.outcome_tail s s.objects 0).trans h1) hl1
    have hput : MemStore.put (fun x : Deployment => x.Meta.Name) o s.objects
        = s.objects := MemStore.put_same _ o s.objects (by rw [hname]; exact hl)
    simp only [hput] at hU
    simp only [dep_get_mem dep0 s name o h0 hl]
    refine ⟨⟨r, o.Spec.Template.Spec, false, false⟩, by simp [hr], ?_⟩
    have hW : (o.setReplicas r).setPodSpec o.Spec.Template.Spec = o := depObj_set_self hr
    have hU1 : depClient.Update ((o.setReplicas r).setPodSpec o.Spec.Template.Spec)
        ⟨s.objects, s.script.tail⟩ = ((some o, none), ⟨s.objects, s.script.tail.tail⟩) := by
      rw [hW]; exact hU
    rw [dep_update_eq ⟨depClient, some o⟩ ⟨r, o.Spec.Template.Spec, false, false⟩ _
        rfl hr hU1]
    simp [MemStore.lookup, hl]

/-- Witness of C5: fetching the replica set "cache" and writing back the spec that
`get` returned leaves its 4 replicas of `T1` in the store. -/
theorem C5_get_then_update_is_identity_witness :
    ∃ spec, (rsHandle.get "cache" ⟨[cacheRS], []⟩).ret = .ret (some spec, none) ∧
      ((rsHandle.get "cache" ⟨[cacheRS], []⟩).self.update spec
          (rsHandle.get "cache" ⟨[cacheRS], []⟩).store).ret = .ret none ∧
      (((rsHandle.get "cache" ⟨[cacheRS], []⟩).self.update spec
          (rsHandle.get "cache" ⟨[cacheRS], []⟩).store).store.lookup
            (fun x => x.Meta.Name) "cache").map (fun x => x.Spec.Replicas)
        = (MemStore.lookup (fun x => x.Meta.Name) ⟨[cacheRS], []⟩ "cache").map
            (fun x => x.Spec.Replicas) ∧
      (((rsHandle.get "cache" ⟨[cacheRS], []⟩).self.update spec
          (rsHandle.get "cache" ⟨[cacheRS], []⟩).store).store.lookup
            (fun x => x.Meta.Name) "cache").map (fun x => x.Spec.Template)
        = (MemStore.lookup (fun x => x.Meta.Name) ⟨[cacheRS], []⟩ "cache").map
            (fun x => x.Spec.Template) :=
  C5_get_then_update_is_identity.2.1 none ⟨[cacheRS], []⟩ "cache" cacheRS rfl (by decide)
    rfl rfl

/-- C6 fails as stated: fetching a controller whose replica-count pointer is nil
(the replication controller "web", the replica set "cache", the deployment "api")
makes `get` fault after a successful fetch; no error value is returned. -/
theorem C6_counterexample :
    ((rcHandle.get "web" ⟨[webNoReplicas], []⟩).calls
        = [Call.fetch "web" (some webNoReplicas) none] ∧
      (rcHandle.get "web" ⟨[webNoReplicas], []⟩).ret = .fault ∧
      ¬ ∃ e, (rcHandle.get "web" ⟨[webNoReplicas], []⟩).ret = .ret (none, some e)) ∧
    ((rsHandle.get "cache" ⟨[cacheNoReplicas], []⟩).calls
        = [Call.fetch "cache" (some cacheNoReplicas) none] ∧
      (rsHandle.get "cache" ⟨[cacheNoReplicas], []⟩).ret = .fault ∧
      ¬ ∃ e, (rsHandle.get "cache" ⟨[cacheNoReplicas], []⟩).ret = .ret (none, some e)) ∧
    ((depHandle.get "api" ⟨[apiNoReplicas], []⟩).calls
        = [Call.fetch "api" (some apiNoReplicas) none] ∧
      (depHandle.get "api" ⟨[apiNoReplicas], []⟩).ret = .fault ∧
      ¬ ∃ e, (depHandle.get "api" ⟨[apiNoReplicas], []⟩).ret = .ret (none, some e)) := by
  have h1 : (rcHandle.get "web" ⟨[webNoReplicas], []⟩).ret = .fault := by decide
  have h2 : (rsHandle.get "cache" ⟨[cacheNoReplicas], []⟩).ret = .fault := by decide
  have h3 : (depHandle.get "api" ⟨[apiNoReplicas], []⟩).ret = .fault := by decide
  refine ⟨⟨by decide, h1, ?_⟩, ⟨by decide, h2, ?_⟩, ⟨by decide, h3, ?_⟩⟩
  · rintro ⟨e, he⟩
    rw [h1] at he
    cases he
  · rintro ⟨e, he⟩
    rw [h2] at he
    cases he
  · rintro ⟨e, he⟩
    rw [h3] at he
    cases he

/-- C6 as amended. For each of the three handles, when the fetch succeeds with an
object whose replica-count pointer is nil, `get` faults on dereferencing it: it
returns neither an error nor a spec (in particular no spec with replicas `0`),
after exactly one fetch call and with the fetched object retained. -/
theorem C6_get_faults_without_replicas :
    (∀ (σ : Type) (h : replicationController σ) (name : String) (s : σ)
        (o : ReplicationController),
        (h.client.Get name s).1 = (some o, none) → o.Spec.Replicas = none →
        (h.get name s).ret = .fault ∧ (h.get name s).self.rc = some o ∧
        (h.get name s).calls = [Call.fetch name (some o) none]) ∧
    (∀ (σ : Type) (h : replicaSet σ) (name : String) (s : σ) (o : ReplicaSet),
        (h.client.Get name s).1 = (some o, none) → o.Spec.Replicas = none →
        (h.get name s).ret = .fault ∧ (h.get name s).self.rs = some o ∧
        (h.get name s).calls = [Call.fetch name (some o) none]) ∧
    (∀ (σ : Type) (h : deployment σ) (name : String) (s : σ) (o : Deployment),
        (h.client.Get name s).1 = (some o, none) → o.Spec.Replicas = none →
        (h.get name s).ret = .fault ∧ (h.get name s).self.dep = some o ∧
        (h.get name s).calls = [Call.fetch name (some o) none]) := by
  refine ⟨?_, ?_, ?_⟩
  · intro σ h name s o hg hr
    rw [rc_get_eq]
    simp [hg, hr]
  · intro σ h name s o hg hr
    rw [rs_get_eq]
    simp [hg, hr]
  · intro σ h name s o hg hr
    rw [dep_get_eq]
    simp [hg, hr]

/-- Witness of amended C6 on the deployment "api" stored without a replica count. -/
theorem C6_get_faults_without_replicas_witness :
    (depHandle.get "api" ⟨[apiNoReplicas], []⟩).ret = .fault ∧
    (depHandle.get "api" ⟨[apiNoReplicas], []⟩).self.dep = some apiNoReplicas ∧
    (depHandle.get "api" ⟨[apiNoReplicas], []⟩).calls
      = [Call.fetch "api" (some apiNoReplicas) none] :=
  C6_get_faults_without_replicas.2.2 (MemStore Deployment) depHandle "api"
    ⟨[apiNoReplicas], []⟩ apiNoReplicas rfl rfl

/-- C7 fails as stated: resizing "web" against a store that times out on the
first write and against a store that times out on the second write returns the very
same value, although the failing write differs. -/
theorem C7_counterexample :
    ((rcHandle.get "web" ⟨[webRC], []⟩).self.update ⟨5, T2, true, false⟩
        ⟨[webRC], [some timeout]⟩).calls
      = [Call.replace (webRC.setReplicas 0) (some ReplicationController.empty) (some timeout)] ∧
    ((rcHandle.get "web" ⟨[webRC], []⟩).self.update ⟨5, T2, true, false⟩
        ⟨[webRC], [none, some timeout]⟩).calls
      = [Call.replace (webRC.setReplicas 0) (some (webRC.setReplicas 0)) none,
         Call.replace ((webRC.setReplicas 5).setPodSpec T2) (some ReplicationController.empty)
           (some timeout)] ∧
    ((rcHandle.get "web" ⟨[webRC], []⟩).self.update ⟨5, T2, true, false⟩
        ⟨[webRC], [some timeout]⟩).ret
      = ((rcHandle.get "web" ⟨[webRC], []⟩).self.update ⟨5, T2, true, false⟩
        ⟨[webRC], [none, some timeout]⟩).ret := by
  refine ⟨by decide, by decide, by decide⟩

/-- C7 as amended. For the replication-controller and replica-set handles, after a
successful `get`, a two-phase resize whose first (scale-to-zero) write fails with
store error `e` returns exactly `e`, and a two-phase resize whose first write is
accepted and whose second (reapply) write fails with the same `e` returns exactly
`e` as well: the two returned values are equal, the phase shows only in the number
of replace calls issued (one against two). -/
theorem C7_error_does_not_name_phase :
    (∀ (σ : Type) (h : replicationController σ) (o o1 : ReplicationController)
        (spec : k8sControllerSpec) (sA sA1 sB sB1 sB2 : σ)
        (objA objB : Option ReplicationController) (e : Error),
        h.fetched o → spec.isResize = true →
        h.client.Update (o.setReplicas 0) sA = ((objA, some e), sA1) →
        h.client.Update (o.setReplicas 0) sB = ((some o1, none), sB1) →
        o1.Spec.Replicas ≠ none → o1.Spec.Template ≠ none →
        h.client.Update ((o1.setReplicas spec.replicas).setPodSpec spec.podSpec) sB1
          = ((objB, some e), sB2) →
        (h.update spec sA).ret = .ret (some e) ∧ (h.update spec sB).ret = .ret (some e) ∧
        (h.update spec sA).ret = (h.update spec sB).ret ∧
        (h.update spec sA).calls.length = 1 ∧ (h.update spec sB).calls.length = 2) ∧
    (∀ (σ : Type) (h : replicaSet σ) (o o1 : ReplicaSet)
        (spec : k8sControllerSpec) (sA sA1 sB sB1 sB2 : σ)
        (objA objB : Option ReplicaSet) (e : Error),
        h.fetched o → spec.isResize = true →
        h.client.Update (o.setReplicas 0) sA = ((objA, some e), sA1) →
        h.client.Update (o.setReplicas 0) sB = ((some o1, none), sB1) →
        o1.Spec.Replicas ≠ none →
        h.client.Update ((o1.setReplicas spec.replicas).setPodSpec spec.podSpec) sB1
          = ((objB, some e), sB2) →
        (h.update spec sA).ret = .ret (some e) ∧ (h.update spec sB).ret = .ret (some e) ∧
        (h.update spec sA).ret = (h.update spec sB).ret ∧
        (h.update spec sA).calls.length = 1 ∧ (h.update spec sB).calls.length = 2) := by
  constructor
  · intro σ h o o1 spec sA sA1 sB sB1 sB2 objA objB e hf hres hA hB1 hr1 ht1 hB2
    obtain ⟨ho, ⟨r, hr⟩, _⟩ := rc_fetched_inv hf
    obtain ⟨r1, hr1⟩ := Option.ne_none_iff_exists'.mp hr1
    obtain ⟨t1, ht1⟩ := Option.ne_none_iff_exists'.mp ht1
    rw [rc_update_resize_err h spec sA hres ho hr hA,
      rc_update_resize_ok h spec sB hres ho hr hB1,
      rc_reapply_eq ⟨h.client, some o1⟩ spec sB1 _ rfl hr1 ht1 hB2]
    simp
  · intro σ h o o1 spec sA sA1 sB sB1 sB2 objA objB e hf hres hA hB1 hr1 hB2
    obtain ⟨ho, ⟨r, hr⟩⟩ := rs_fetched_inv hf
    obtain ⟨r1, hr1⟩ := Option.ne_none_iff_exists'.mp hr1
    rw [rs_update_resize_err h spec sA hres ho hr hA,
      rs_update_resize_ok h spec sB hres ho hr hB1,
      rs_reapply_eq ⟨h.client, some o1⟩ spec sB1 _ rfl hr1 hB2]
    simp

/-- Witness of amended C7 on the replica set "cache" with a timeout on the first
write, respectively on the second. -/
theorem C7_error_does_not_name_phase_witness :
    ((rsHandle.get "cache" ⟨[cacheRS], []⟩).self.update ⟨6, T2, true, false⟩
        ⟨[cacheRS], [some timeout]⟩).ret = .ret (some timeout) ∧
    ((rsHandle.get "cache" ⟨[cacheRS], []⟩).self.update ⟨6, T2, true, false⟩
        ⟨[cacheRS], [none, some timeout]⟩).ret = .ret (some timeout) ∧
    ((rsHandle.get "cache" ⟨[cacheRS], []⟩).self.update ⟨6, T2, true, false⟩
        ⟨[cacheRS], [some timeout]⟩).ret
      = ((rsHandle.get "cache" ⟨[cacheRS], []⟩).self.update ⟨6, T2, true, false⟩
        ⟨[cacheRS], [none, some timeout]⟩).ret ∧
    ((rsHandle.get "cache" ⟨[cacheRS], []⟩).self.update ⟨6, T2, true, false⟩
        ⟨[cacheRS], [some timeout]⟩).calls.length = 1 ∧
    ((rsHandle.get "cache" ⟨[cacheRS], []⟩).self.update ⟨6, T2, true, false⟩
        ⟨[cacheRS], [none, some timeout]⟩).calls.length = 2 :=
  C7_error_does_not_name_phase.2 (MemStore ReplicaSet)
    (rsHandle.get "cache" ⟨[cacheRS], []⟩).self cacheRS (cacheRS.setReplicas 0)
    ⟨6, T2, true, false⟩ ⟨[cacheRS], [some timeout]⟩ ⟨[cacheRS], []⟩
    ⟨[cacheRS], [none, some timeout]⟩ ⟨[cacheRS.setReplicas 0], [some timeout]⟩
    ⟨[cacheRS.setReplicas 0], []⟩ (some ReplicaSet.empty) (some ReplicaSet.empty) timeout
    ⟨rsHandle, "cache", ⟨[cacheRS], []⟩, ⟨4, T1, false, false⟩, rfl, rfl, rfl⟩ rfl rfl rfl
    (by decide) rfl

/-- C8. Store failures are propagated unchanged, for each of the three handles:
when the fetch made by `get` fails with error `e`, `get` returns exactly `e` and no
spec; when a replace call made by `update` fails with error `e`, `update` returns
exactly `e`. -/
theorem C8_store_errors_propagate :
    (∀ (σ : Type) (h : replicationController σ) (name : String) (s : σ) (e : Error),
        (h.client.Get name s).1.2 = some e → (h.get name s).ret = .ret (none, some e)) ∧
    (∀ (σ : Type) (h : replicationController σ) (spec : k8sControllerSpec) (s : σ)
        (a : ReplicationController) (obj : Option ReplicationController) (e : Error),
        Call.replace a obj (some e) ∈ (h.update spec s).calls →
        (h.update spec s).ret = .ret (some e)) ∧
    (∀ (σ : Type) (h : replicaSet σ) (name : String) (s : σ) (e : Error),
        (h.client.Get name s).1.2 = some e → (h.get name s).ret = .ret (none, some e)) ∧
    (∀ (σ : Type) (h : replicaSet σ) (spec : k8sControllerSpec) (s : σ)
        (a : ReplicaSet) (obj : Option ReplicaSet) (e : Error),
        Call.replace a obj (some e) ∈ (h.update spec s).calls →
        (h.update spec s).ret = .ret (some e)) ∧
    (∀ (σ : Type) (h : deployment σ) (name : String) (s : σ) (e : Error),
        (h.client.Get name s).1.2 = some e → (h.get name s).ret = .ret (none, some e)) ∧
    (∀ (σ : Type) (h : deployment σ) (spec : k8sControllerSpec) (s : σ)
        (a : Deployment) (obj : Option Deployment) (e : Error),
        Call.replace a obj (some e) ∈ (h.update spec s).calls →
        (h.update spec s).ret = .ret (some e)) := by
  refine ⟨?_, ?_, ?_, ?_, ?_, ?_⟩
  · intro σ h name s e he
    rw [rc_get_eq]
    simp [he]
  · intro σ h spec s a obj e hmem
    rcases rc_update_cases h spec s with
      ⟨_, hc⟩ | ⟨o, obj1, err, _, _, hr, hc⟩ | ⟨o, obj1, e1, _, _, hr, hc⟩ |
      ⟨o, obj1, _, _, _, hc⟩ | ⟨o, o1, obj1, err, _, _, hr, hc⟩ <;>
    rw [hc] at hmem <;> simp at hmem
    · rw [hr, hmem.2.2]
    · rw [hr, hmem.2.2]
    · rw [hr, hmem.2.2]
  · intro σ h name s e he
    rw [rs_get_eq]
    simp [he]
  · intro σ h spec s a obj e hmem
    rcases rs_update_cases h spec s with
      ⟨_, hc⟩ | ⟨o, obj1, err, _, _, hr, hc⟩ | ⟨o, obj1, e1, _, _, hr, hc⟩ |
      ⟨o, obj1, _, _, _, hc⟩ | ⟨o, o1, obj1, err, _, _, hr, hc⟩ <;>
    rw [hc] at hmem <;> simp at hmem
    · rw [hr, hmem.2.2]
    · rw [hr, hmem.2.2]
    · rw [hr, hmem.2.2]
  · intro σ h name s e he
    rw [dep_get_eq]
    simp [he]
  · intro σ h spec s a obj e hmem
    rcases dep_update_cases h spec s with ⟨_, hc⟩ | ⟨o, obj1, err, _, hr, hc⟩ <;>
    rw [hc] at hmem <;> simp at hmem
    rw [hr, hmem.2.2]

/-- Witness of C8: a fetch of "api" that times out makes `get` return that
timeout, and a resize of "web" whose second write times out makes `update` return
that timeout. -/
theorem C8_store_errors_propagate_witness :
    (depHandle.get "api" ⟨[apiDep], [some timeout]⟩).ret = .ret (none, some timeout) ∧
    ((rcHandle.get "web" ⟨[webRC], []⟩).self.update ⟨5, T2, true, false⟩
        ⟨[webRC], [none, some timeout]⟩).ret = .ret (some timeout) :=
  ⟨C8_store_errors_propagate.2.2.2.2.1 (MemStore Deployment) depHandle "api"
      ⟨[apiDep], [some timeout]⟩ timeout rfl,
   C8_store_errors_propagate.2.1 (MemStore ReplicationController)
      (rcHandle.get "web" ⟨[webRC], []⟩).self ⟨5, T2, true, false⟩
      ⟨[webRC], [none, some timeout]⟩ ((webRC.setReplicas 5).setPodSpec T2)
      (some ReplicationController.empty) timeout (by decide)⟩

/-- C9 fails as stated: after fetching "web" (3 replicas of `T1`), a caller that
writes the resized container into the returned spec in place, then asks for 5
replicas with `isResize`, against a store that accepts the first write and times out
on the second: `update` returns the timeout and the store holds "web" at 0 replicas
of the new template `T2`, not of its old template. -/
theorem C9_counterexample :
    (rcHandle.get "web" ⟨[webRC], [none, none, some timeout]⟩).ret
      = .ret (some ⟨3, T1, false, false⟩, none) ∧
    (rcHandle.get "web" ⟨[webRC], [none, none, some timeout]⟩).self.writeContainer
        ⟨3, T1, false, false⟩ 0 resized
      = .ret (webInPlace, ⟨3, T2, false, false⟩) ∧
    (webInPlace.update ⟨5, T2, true, false⟩
        (rcHandle.get "web" ⟨[webRC], [none, none, some timeout]⟩).store).ret
      = .ret (some timeout) ∧
    (webInPlace.update ⟨5, T2, true, false⟩
        (rcHandle.get "web" ⟨[webRC], [none, none, some timeout]⟩).store).store.lookup
          (fun x => x.Meta.Name) "web"
      = some ((webRC.setPodSpec T2).setReplicas 0) ∧
    ((webRC.setPodSpec T2).setReplicas 0).Spec.Template ≠ webRC.Spec.Template :=
  ⟨by decide, rfl, by decide, by decide, by decide⟩

/-- C9 as amended. Failure of the second write of a two-phase resize (replication
controller and replica set). After a successful `get` that fetched `o`, for a spec
with `isResize = true`, when the store accepts the scale-to-zero write (answering
with a well-formed object `o1`) and the reapply write fails with error `e`, `update`
returns the failure `e` after exactly two replace calls, the accepted scale-to-zero
one and the rejected reapply, and makes no further call to restore or retry. The
accepted write carries replicas `0` and the pod template the handle retains when
`update` is called: with the handle as `get` left it that is the template of `o`
(the old template); after the caller has written a container of the returned spec
in place it is the template so written. On the in-memory store, which applies
accepted replaces and discards failed ones, the controller accordingly ends with
replicas `0` and its old template in the first case, and with replicas `0` and the
template written in place in the second. -/
theorem C9_second_write_failure_leaves_scaled_to_zero :
    (∀ (σ : Type) (h0 : replicationController σ) (name : String) (s0 : σ)
        (spec0 : k8sControllerSpec) (o o1 : ReplicationController)
        (spec : k8sControllerSpec) (s s1 s2 : σ) (obj2 : Option ReplicationController)
        (e : Error),
        (h0.get name s0).ret = .ret (some spec0, none) →
        (h0.client.Get name s0).1.1 = some o →
        spec.isResize = true →
        h0.client.Update (o.setReplicas 0) s = ((some o1, none), s1) →
        o1.Spec.Replicas ≠ none → o1.Spec.Template ≠ none →
        h0.client.Update ((o1.setReplicas spec.replicas).setPodSpec spec.podSpec) s1
          = ((obj2, some e), s2) →
        ∃ w1 w2,
          ((h0.get name s0).self.update spec s).calls
            = [Call.replace w1 (some o1) none, Call.replace w2 obj2 (some e)] ∧
          ((h0.get name s0).self.update spec s).ret = .ret (some e) ∧
          ((h0.get name s0).self.update spec s).store = s2 ∧
          w1.Spec.Replicas = some 0 ∧ w1.Spec.Template = o.Spec.Template) ∧
    (∀ (σ : Type) (h0 : replicationController σ) (name : String) (s0 : σ)
        (spec0 spec1 : k8sControllerSpec) (o o1 : ReplicationController) (i : Nat)
        (c : Container) (h1 : replicationController σ)
        (spec : k8sControllerSpec) (s s1 s2 : σ) (obj2 : Option ReplicationController)
        (e : Error),
        (h0.get name s0).ret = .ret (some spec0, none) →
        (h0.client.Get name s0).1.1 = some o →
        (h0.get name s0).self.writeContainer spec0 i c = .ret (h1, spec1) →
        spec.isResize = true →
        h0.client.Update ((o.setContainer i c).setReplicas 0) s = ((some o1, none), s1) →
        o1.Spec.Replicas ≠ none → o1.Spec.Template ≠ none →
        h0.client.Update ((o1.setReplicas spec.replicas).setPodSpec spec.podSpec) s1
          = ((obj2, some e), s2) →
        ∃ w1 w2,
          (h1.update spec s).calls
            = [Call.replace w1 (some o1) none, Call.replace w2 obj2 (some e)] ∧
          (h1.update spec s).ret = .ret (some e) ∧ (h1.update spec s).store = s2 ∧
          w1.Spec.Replicas = some 0 ∧
          w1.Spec.Template = (o.setContainer i c).Spec.Template ∧
          w1.Spec.Template.map (fun t => t.Spec) = some spec1.podSpec) ∧
    (∀ (σ : Type) (h0 : replicaSet σ) (name : String) (s0 : σ)
        (spec0 : k8sControllerSpec) (o o1 : ReplicaSet)
        (spec : k8sControllerSpec) (s s1 s2 : σ) (obj2 : Option ReplicaSet) (e : Error),
        (h0.get name s0).ret = .ret (some spec0, none) →
        (h0.client.Get name s0).1.1 = some o →
        spec.isResize = true →
        h0.client.Update (o.setReplicas 0) s = ((some o1, none), s1) →
        o1.Spec.Replicas ≠ none →
        h0.client.Update ((o1.setReplicas spec.replicas).setPodSpec spec.podSpec) s1
          = ((obj2, some e), s2) →
        ∃ w1 w2,
          ((h0.get name s0).self.update spec s).calls
            = [Call.replace w1 (some o1) none, Call.replace w2 obj2 (some e)] ∧
          ((h0.get name s0).self.update spec s).ret = .ret (some e) ∧
          ((h0.get name s0).self.update spec s).store = s2 ∧
          w1.Spec.Replicas = some 0 ∧ w1.Spec.Template = o.Spec.Template) ∧
    (∀ (σ : Type) (h0 : replicaSet σ) (name : String) (s0 : σ)
        (spec0 spec1 : k8sControllerSpec) (o o1 : ReplicaSet) (i : Nat)
        (c : Container) (h1 : replicaSet σ)
        (spec : k8sControllerSpec) (s s1 s2 : σ) (obj2 : Option ReplicaSet) (e : Error),
        (h0.get name s0).ret = .ret (some spec0, none) →
        (h0.client.Get name s0).1.1 = some o →
        (h0.get name s0).self.writeContainer spec0 i c = .ret (h1, spec1) →
        spec.isResize = true →
        h0.client.Update ((o.setContainer i c).setReplicas 0) s = ((some o1, none), s1) →
        o1.Spec.Replicas ≠ none →
        h0.client.Update ((o1.setReplicas spec.replicas).setPodSpec spec.podSpec) s1
          = ((obj2, some e), s2) →
        ∃ w1 w2,
          (h1.update spec s).calls
            = [Call.replace w1 (some o1) none, Call.replace w2 obj2 (some e)] ∧
          (h1.update spec s).ret = .ret (some e) ∧ (h1.update spec s).store = s2 ∧
          w1.Spec.Replicas = some 0 ∧
          w1.Spec.Template = (o.setContainer i c).Spec.Template ∧
          w1.Spec.Template.Spec = spec1.podSpec) ∧
    (∀ (rc0 : Option ReplicationController) (s : MemStore ReplicationController)
        (name : String) (o : ReplicationController) (spec : k8sControllerSpec) (e : Error),
        s.lookup (fun x => x.Meta.Name) name = some o →
        o.Spec.Replicas ≠ none → o.Spec.Template ≠ none → spec.isResize = true →
        s.outcome 0 = none → s.outcome 1 = none → s.outcome 2 = some e →
        let g := (⟨rcClient, rc0⟩ : replicationController (MemStore ReplicationController)).get
          name s
        (g.self.update spec g.store).ret = .ret (some e) ∧
        (g.self.update spec g.store).calls.length = 2 ∧
        ∃ o2, (g.self.update spec g.store).store.lookup (fun x => x.Meta.Name) name = some o2 ∧
          o2.Spec.Replicas = some 0 ∧ o2.Spec.Template = o.Spec.Template) ∧
    (∀ (rc0 : Option ReplicationController) (s : MemStore ReplicationController)
        (name : String) (o : ReplicationController) (spec0 spec1 : k8sControllerSpec)
        (i : Nat) (c : Container) (h1 : replicationController (MemStore ReplicationController))
        (spec : k8sControllerSpec) (e : Error),
        s.lookup (fun x => x.Meta.Name) name = some o →
        ((⟨rcClient, rc0⟩ : replicationController (MemStore ReplicationController)).get
          name s).ret = .ret (some spec0, none) →
        ((⟨rcClient, rc0⟩ : replicationController (MemStore ReplicationController)).get
          name s).self.writeContainer spec0 i c = .ret (h1, spec1) →
        spec.isResize = true →
        s.outcome 0 = none → s.outcome 1 = none → s.outcome 2 = some e →
        let g := (⟨rcClient, rc0⟩ : replicationController (MemStore ReplicationController)).get
          name s
        (h1.update spec g.store).ret = .ret (some e) ∧
        (h1.update spec g.store).calls.length = 2 ∧
        ∃ o2, (h1.update spec g.store).store.lookup (fun x => x.Meta.Name) name = some o2 ∧
          o2.Spec.Replicas = some 0 ∧
          o2.Spec.Template = (o.setContainer i c).Spec.Template ∧
          o2.Spec.Template.map (fun t => t.Spec) = some spec1.podSpec) ∧
    (∀ (rs0 : Option ReplicaSet) (s : MemStore ReplicaSet)
        (name : String) (o : ReplicaSet) (spec : k8sControllerSpec) (e : Error),
        s.lookup (fun x => x.Meta.Name) name = some o →
        o.Spec.Replicas ≠ none → spec.isResize = true →
        s.outcome 0 = none → s.outcome 1 = none → s.outcome 2 = some e →
        let g := (⟨rsClient, rs0⟩ : replicaSet (MemStore ReplicaSet)).get name s
        (g.self.update spec g.store).ret = .ret (some e) ∧
        (g.self.update spec g.store).calls.length = 2 ∧
        ∃ o2, (g.self.update spec g.store).store.lookup (fun x => x.Meta.Name) name = some o2 ∧
          o2.Spec.Replicas = some 0 ∧ o2.Spec.Template = o.Spec.Template) ∧
    (∀ (rs0 : Option ReplicaSet) (s : MemStore ReplicaSet)
        (name : String) (o : ReplicaSet) (spec0 spec1 : k8sControllerSpec)
        (i : Nat) (c : Container) (h1 : replicaSet (MemStore ReplicaSet))
        (spec : k8sControllerSpec) (e : Error),
        s.lookup (fun x => x.Meta.Name) name = some o →
        ((⟨rsClient, rs0⟩ : replicaSet (MemStore ReplicaSet)).get name s).ret = .ret (some spec0, none) →
        ((⟨rsClient, rs0⟩ : replicaSet (MemStore ReplicaSet)).get name s).self.writeContainer spec0 i c
          = .ret (h1, spec1) →
        spec.isResize = true →
        s.outcome 0 = none → s.outcome 1 = none → s.outcome 2 = some e →
        let g := (⟨rsClient, rs0⟩ : replicaSet (MemStore ReplicaSet)).get name s
        (h1.update spec g.store).ret = .ret (some e) ∧
        (h1.update spec g.store).calls.length = 2 ∧
        ∃ o2, (h1.update spec g.store).store.lookup (fun x => x.Meta.Name) name = some o2 ∧
          o2.Spec.Replicas = some 0 ∧
          o2.Spec.Template = (o.setContainer i c).Spec.Template ∧
          o2.Spec.Template.Spec = spec1.podSpec) := by
  refine ⟨?_, ?_, ?_, ?_, ?_, ?_, ?_, ?_⟩
  · intro σ h0 name s0 spec0 o o1 spec s s1 s2 obj2 e hret ho hres hw1 hr1 ht1 hw2
    obtain ⟨hself, hr, _⟩ := rc_get_ret_inv hret ho
    obtain ⟨r1, hr1⟩ := Option.ne_none_iff_exists'.mp hr1
    obtain ⟨t1, ht1⟩ := Option.ne_none_iff_exists'.mp ht1
    refine ⟨o.setReplicas 0, (o1.setReplicas spec.replicas).setPodSpec spec.podSpec, ?_⟩
    rw [hself, rc_resize_two_writes ⟨h0.client, some o⟩ spec s hres rfl hr hw1 hr1 ht1 hw2]
    simp
  · intro σ h0 name s0 spec0 spec1 o o1 i c h1 spec s s1 s2 obj2 e hret ho hwr hres hw1 hr1
      ht1 hw2
    obtain ⟨hself, hr, t, ht, hp⟩ := rc_get_ret_inv hret ho
    obtain ⟨r1, hr1⟩ := Option.ne_none_iff_exists'.mp hr1
    obtain ⟨t1, ht1⟩ := Option.ne_none_iff_exists'.mp ht1
    rw [hself] at hwr
    obtain ⟨rfl, hp1⟩ := rc_write_inv hwr
    refine ⟨(o.setContainer i c).setReplicas 0,
      (o1.setReplicas spec.replicas).setPodSpec spec.podSpec, ?_⟩
    rw [rc_resize_two_writes ⟨h0.client, some (o.setContainer i c)⟩ spec s hres rfl
      ((rcObj_setContainer_replicas o i c).trans hr) hw1 hr1 ht1 hw2]
    simp [ht, hp1, hp]
  · intro σ h0 name s0 spec0 o o1 spec s s1 s2 obj2 e hret ho hres hw1 hr1 hw2
    obtain ⟨hself, hr, _⟩ := rs_get_ret_inv hret ho
    obtain ⟨r1, hr1⟩ := Option.ne_none_iff_exists'.mp hr1
    refine ⟨o.setReplicas 0, (o1.setReplicas spec.replicas).setPodSpec spec.podSpec, ?_⟩
    rw [hself, rs_resize_two_writes ⟨h0.client, some o⟩ spec s hres rfl hr hw1 hr1 hw2]
    simp
  · intro σ h0 name s0 spec0 spec1 o o1 i c h1 spec s s1 s2 obj2 e hret ho hwr hres hw1 hr1
      hw2
    obtain ⟨hself, hr, hp⟩ := rs_get_ret_inv hret ho
    obtain ⟨r1, hr1⟩ := Option.ne_none_iff_exists'.mp hr1
    rw [hself] at hwr
    obtain ⟨rfl, hp1⟩ := rs_write_inv hwr
    refine ⟨(o.setContainer i c).setReplicas 0,
      (o1.setReplicas spec.replicas).setPodSpec spec.podSpec, ?_⟩
    rw [rs_resize_two_writes ⟨h0.client, some (o.setContainer i c)⟩ spec s hres rfl
      ((rsObj_setContainer_replicas o i c).trans hr) hw1 hr1 hw2]
    simp [hp1, hp]
  · intro rc0 s name o spec e hl hr ht hres h0 h1 h2
    obtain ⟨r, hr⟩ := Option.ne_none_iff_exists'.mp hr
    obtain ⟨t, ht⟩ := Option.ne_none_iff_exists'.mp ht
    have hname : o.Meta.Name = name :=
      MemStore.name_of_lookup (fun x : ReplicationController => x.Meta.Name) hl
    simp only [rc_get_mem rc0 s name o h0 hl]
    obtain ⟨k1, k2, k3⟩ := rc_mem_second_write_fails ⟨s.objects, s.script.tail⟩ name o o spec e
      hl hname hr ht hres ((MemStore.outcome_tail s s.objects 0).trans h1)
      ((MemStore.outcome_tail s s.objects 1).trans h2)
    exact ⟨k1, k2, o.setReplicas 0, k3, rfl, rfl⟩
  · intro rc0 s name o spec0 spec1 i c h1 spec e hl hret hwr hres h0 h1' h2
    have hname : o.Meta.Name = name :=
      MemStore.name_of_lookup (fun x : ReplicationController => x.Meta.Name) hl
    have hg : (rcClient.Get name s).1.1 = some o := by
      have := MemStore.client_Get_ok (fun x : ReplicationController => x.Meta.Name)
        ReplicationController.empty s name o h0 hl
      simp only [rcClient, this]
    obtain ⟨_, hr, t, ht, hp⟩ := rc_get_ret_inv hret hg
    simp only [rc_get_mem rc0 s name o h0 hl] at hwr ⊢
    obtain ⟨rfl, hp1⟩ := rc_write_inv hwr
    obtain ⟨k1, k2, k3⟩ := rc_mem_second_write_fails ⟨s.objects, s.script.tail⟩ name o
      (o.setContainer i c) spec e hl hname hr
      ((rcObj_setContainer_template o i c).trans (by rw [ht]; rfl)) hres
      ((MemStore.outcome_tail s s.objects 0).trans h1')
      ((MemStore.outcome_tail s s.objects 1).trans h2)
    refine ⟨k1, k2, (o.setContainer i c).setReplicas 0, k3, rfl, rfl, ?_⟩
    simp [ht, hp1, hp]
  · intro rs0 s name o spec e hl hr hres h0 h1 h2
    obtain ⟨r, hr⟩ := Option.ne_none_iff_exists'.mp hr
    have hname : o.Meta.Name = name :=
      MemStore.name_of_lookup (fun x : ReplicaSet => x.Meta.Name) hl
    simp only [rs_get_mem rs0 s name o h0 hl]
    obtain ⟨k1, k2, k3⟩ := rs_mem_second_write_fails ⟨s.objects, s.script.tail⟩ name o o spec e
      hl hname hr hres ((MemStore.outcome_tail s s.objects 0).trans h1)
      ((MemStore.outcome_tail s s.objects 1).trans h2)
    exact ⟨k1, k2, o.setReplicas 0, k3, rfl, rfl⟩
  · intro rs0 s name o spec0 spec1 i c h1 spec e hl hret hwr hres h0 h1' h2
    have hname : o.Meta.Name = name :=
      MemStore.name_of_lookup (fun x : ReplicaSet => x.Meta.Name) hl
    have hg : (rsClient.Get name s).1.1 = some o := by
      have := MemStore.client_Get_ok (fun x : ReplicaSet => x.Meta.Name)
        ReplicaSet.empty s name o h0 hl
      simp only [rsClient, this]
    obtain ⟨_, hr, hp⟩ := rs_get_ret_inv hret hg
    simp only [rs_get_mem rs0 s name o h0 hl] at hwr ⊢
    obtain ⟨rfl, hp1⟩ := rs_write_inv hwr
    obtain ⟨k1, k2, k3⟩ := rs_mem_second_write_fails ⟨s.objects, s.script.tail⟩ name o
      (o.setContainer i c) spec e hl hname hr hres
      ((MemStore.outcome_tail s s.objects 0).trans h1')
      ((MemStore.outcome_tail s s.objects 1).trans h2)
    refine ⟨k1, k2, (o.setContainer i c).setReplicas 0, k3, rfl, rfl, ?_⟩
    simp [hp1, hp]

/-- Witness of amended C9: resizing "web" from 3 replicas of `T1` to 5 replicas of
`T2` against a store that times out on the second write leaves "web" at 0 replicas
after exactly two replace calls, of `T1` for a spec built apart from the returned
one and of `T2` after an in-place write. -/
theorem C9_second_write_failure_leaves_scaled_to_zero_witness :
    (((rcHandle.get "web" ⟨[webRC], [none, none, some timeout]⟩).self.update
        ⟨5, T2, true, false⟩
        (rcHandle.get "web" ⟨[webRC], [none, none, some timeout]⟩).store).ret
      = .ret (some timeout) ∧
    ((rcHandle.get "web" ⟨[webRC], [none, none, some timeout]⟩).self.update
        ⟨5, T2, true, false⟩
        (rcHandle.get "web" ⟨[webRC], [none, none, some timeout]⟩).store).calls.length = 2 ∧
    ∃ o2,
      ((rcHandle.get "web" ⟨[webRC], [none, none, some timeout]⟩).self.update
        ⟨5, T2, true, false⟩
        (rcHandle.get "web" ⟨[webRC], [none, none, some timeout]⟩).store).store.lookup
          (fun x => x.Meta.Name) "web" = some o2 ∧
      o2.Spec.Replicas = some 0 ∧ o2.Spec.Template = webRC.Spec.Template) ∧
    ((webInPlace.update ⟨5, T2, true, false⟩
        (rcHandle.get "web" ⟨[webRC], [none, none, some timeout]⟩).store).ret
      = .ret (some timeout) ∧
    (webInPlace.update ⟨5, T2, true, false⟩
        (rcHandle.get "web" ⟨[webRC], [none, none, some timeout]⟩).store).calls.length = 2 ∧
    ∃ o2,
      (webInPlace.update ⟨5, T2, true, false⟩
        (rcHandle.get "web" ⟨[webRC], [none, none, some timeout]⟩).store).store.lookup
          (fun x => x.Meta.Name) "web" = some o2 ∧
      o2.Spec.Replicas = some 0 ∧
      o2.Spec.Template = (webRC.setContainer 0 resized).Spec.Template ∧
      o2.Spec.Template.map (fun t => t.Spec) = some T2) :=
  ⟨C9_second_write_failure_leaves_scaled_to_zero.2.2.2.2.1 none
      ⟨[webRC], [none, none, some timeout]⟩ "web" webRC ⟨5, T2, true, false⟩ timeout rfl
      (by decide) (by decide) rfl rfl rfl rfl,
   C9_second_write_failure_leaves_scaled_to_zero.2.2.2.2.2.1 none
      ⟨[webRC], [none, none, some timeout]⟩ "web" webRC ⟨3, T1, false, false⟩
      ⟨3, T2, false, false⟩ 0 resized webInPlace ⟨5, T2, true, false⟩ timeout rfl rfl rfl
      rfl rfl rfl rfl⟩

/-- C10. Frame of the writes, for each of the three handles. With `o` the object
the handle retains, every object `update` passes to replace agrees with its base on
all fields other than the replica count and the pod specification of the template
(metadata with name, labels and owner references, selector, template metadata,
status): the base of the first write is `o`, the base of the second write of a
two-phase resize is the object `o1` the store returned from the first write. There
is never a third write. -/
theorem C10_writes_keep_unmanaged_fields :
    (∀ (σ : Type) (h : replicationController σ) (o : ReplicationController)
        (spec : k8sControllerSpec) (s : σ), h.rc = some o →
        match (h.update spec s).calls with
        | [] => True
        | [Call.replace a _ _] => a.sameFrame o
        | [Call.replace a (some o1) _, Call.replace b _ _] => a.sameFrame o ∧ b.sameFrame o1
        | _ => False) ∧
    (∀ (σ : Type) (h : replicaSet σ) (o : ReplicaSet) (spec : k8sControllerSpec) (s : σ),
        h.rs = some o →
        match (h.update spec s).calls with
        | [] => True
        | [Call.replace a _ _] => a.sameFrame o
        | [Call.replace a (some o1) _, Call.replace b _ _] => a.sameFrame o ∧ b.sameFrame o1
        | _ => False) ∧
    (∀ (σ : Type) (h : deployment σ) (o : Deployment) (spec : k8sControllerSpec) (s : σ),
        h.dep = some o →
        match (h.update spec s).calls with
        | [] => True
        | [Call.replace a _ _] => a.sameFrame o
        | _ => False) := by
  refine ⟨?_, ?_, ?_⟩
  · intro σ h o spec s ho
    rcases rc_update_cases h spec s with
      ⟨_, hc⟩ | ⟨o', obj1, err, ho', _, _, hc⟩ | ⟨o', obj1, e1, ho', _, _, hc⟩ |
      ⟨o', obj1, ho', _, _, hc⟩ | ⟨o', o1, obj1, err, ho', _, _, hc⟩ <;>
    rw [hc] <;> simp only
    all_goals
      obtain rfl : o = o' := Option.some.inj (ho.symm.trans ho')
    · exact rcObj_sameFrame_set _ _ _
    · exact rcObj_sameFrame_setReplicas _ _
    · exact rcObj_sameFrame_setReplicas _ _
    · exact ⟨rcObj_sameFrame_setReplicas _ _,
        rcObj_sameFrame_set _ _ _⟩
  · intro σ h o spec s ho
    rcases rs_update_cases h spec s with
      ⟨_, hc⟩ | ⟨o', obj1, err, ho', _, _, hc⟩ | ⟨o', obj1, e1, ho', _, _, hc⟩ |
      ⟨o', obj1, ho', _, _, hc⟩ | ⟨o', o1, obj1, err, ho', _, _, hc⟩ <;>
    rw [hc] <;> simp only
    all_goals
      obtain rfl : o = o' := Option.some.inj (ho.symm.trans ho')
    · exact rsObj_sameFrame_set _ _ _
    · exact rsObj_sameFrame_setReplicas _ _
    · exact rsObj_sameFrame_setReplicas _ _
    · exact ⟨rsObj_sameFrame_setReplicas _ _, rsObj_sameFrame_set _ _ _⟩
  · intro σ h o spec s ho
    rcases dep_update_cases h spec s with ⟨_, hc⟩ | ⟨o', obj1, err, ho', _, hc⟩ <;>
    rw [hc] <;> simp only
    obtain rfl : o = o' := Option.some.inj (ho.symm.trans ho')
    exact depObj_sameFrame_set _ _ _

/-- Witness of C10: the two writes of resizing "web" keep its name, labels, owner
references, selector and template metadata. -/
theorem C10_writes_keep_unmanaged_fields_witness :
    (match ((rcHandle.get "web" ⟨[webRC], []⟩).self.update ⟨5, T2, true, false⟩
        ⟨[webRC], []⟩).calls with
    | [] => True
    | [Call.replace a _ _] => a.sameFrame webRC
    | [Call.replace a (some o1) _, Call.replace b _ _] => a.sameFrame webRC ∧ b.sameFrame o1
    | _ => False) ∧
    ((rcHandle.get "web" ⟨[webRC], []⟩).self.update ⟨5, T2, true, false⟩
        ⟨[webRC], []⟩).calls.length = 2 :=
  ⟨C10_writes_keep_unmanaged_fields.1 (MemStore ReplicationController)
    (rcHandle.get "web" ⟨[webRC], []⟩).self webRC ⟨5, T2, true, false⟩ ⟨[webRC], []⟩ rfl,
   by decide⟩

end Kubeturbo
